import Mathlib

/-!
Shallow embedding of the monk repository (src/monk/midi.py and src/monk/rpp.py)
together with proofs about the claims of its specification.

Modelling conventions:
* Python strings are sequences of code points, embedded as `List Char`.
* Python floats are embedded as rationals; the arithmetic performed by the
  source (`*`, `int()`, `round()`) is exact on the dyadic values exercised by
  the claims, so the rational model agrees with the float computation there.
* Fallible Python code (raising exceptions) is embedded as `Except`.
* The fresh-identifier source `uuid.uuid4()` is embedded as an explicit supply
  `ids : Nat → PyStr` consumed at an explicit counter.
-/

set_option maxHeartbeats 2000000

/-- Python strings embedded as lists of characters (code points). -/
abbrev PyStr := List Char

/-- Convert a Lean string literal to the embedded Python string type. -/
def pys (x : String) : PyStr := x.data

/-- Python's notion of whitespace used by `str.strip()` / `str.split()`. -/
def pyIsSpace (c : Char) : Bool :=
  c = ' ' || c = '\t' || c = '\n' || c = '\r' || c = '\x0b' || c = '\x0c'

/-- Python `str.strip()`: remove leading and trailing whitespace. -/
def pyStrip (s : PyStr) : PyStr :=
  ((s.dropWhile pyIsSpace).reverse.dropWhile pyIsSpace).reverse

/-- Python `str.startswith(p)`. -/
def pyStartsWith (s p : PyStr) : Bool := List.isPrefixOf p s

/-- Helper for `pySplit`: accumulates the current word (reversed). -/
def pySplitAux : PyStr → PyStr → List PyStr
  | [], cur => if cur = [] then [] else [cur.reverse]
  | c :: rest, cur =>
    if pyIsSpace c then
      if cur = [] then pySplitAux rest [] else cur.reverse :: pySplitAux rest []
    else pySplitAux rest (c :: cur)

/-- Python `str.split()` with no argument: split on runs of whitespace,
discarding empty fields. -/
def pySplit (s : PyStr) : List PyStr := pySplitAux s []

/-- Numeric value of a decimal digit character. -/
def pyDigitVal (c : Char) : Nat := c.toNat - '0'.toNat

/-- Value of a string of decimal digits. -/
def digitsVal (ds : PyStr) : Nat := ds.foldl (fun a c => a * 10 + pyDigitVal c) 0

/-- Core of `pyParseInt`: an optional sign followed by one or more digits. -/
def pyParseIntCore (t : PyStr) : Option Int :=
  match t with
  | '-' :: ds =>
    if !ds.isEmpty && ds.all Char.isDigit then some (-(digitsVal ds : Int)) else none
  | '+' :: ds =>
    if !ds.isEmpty && ds.all Char.isDigit then some (digitsVal ds : Int) else none
  | ds =>
    if !ds.isEmpty && ds.all Char.isDigit then some (digitsVal ds : Int) else none

/-- Python `int(s)` on a string: strips whitespace, then an optional sign and
decimal digits.  (Underscore separators, which no input here uses, are not
modelled.)  `none` models the `ValueError` raised on any other input. -/
def pyParseInt (s : PyStr) : Option Int := pyParseIntCore (pyStrip s)

/-- Python `float(s)` on a string: strips whitespace, then an optional sign,
an integer part and an optional fractional part.  Exponents and the special
words `inf`/`nan`, which no input here uses, are not modelled.  `none` models
the `ValueError` raised on any other input. -/
def pyParseFloat (s : PyStr) : Option ℚ :=
  let t := pyStrip s
  let sgnxt : ℚ × PyStr :=
    match t with
    | '-' :: r => (-1, r)
    | '+' :: r => (1, r)
    | r => (1, r)
  let u := sgnxt.2
  let ip := u.takeWhile Char.isDigit
  let rest := u.dropWhile Char.isDigit
  match rest with
  | [] => if ip.isEmpty then none else some (sgnxt.1 * (digitsVal ip : ℚ))
  | '.' :: fp =>
    if fp.all Char.isDigit && (!ip.isEmpty || !fp.isEmpty) then
      some (sgnxt.1 * ((digitsVal ip : ℚ) + (digitsVal fp : ℚ) / (10 ^ fp.length)))
    else none
  | _ => none

/-- Fuel-driven helper for `natRepr`; the fuel only forces structural
recursion and is always sufficient when it exceeds the number. -/
def natReprAux : Nat → Nat → PyStr
  | 0, _ => []
  | fuel + 1, n =>
    if n < 10 then [Char.ofNat ('0'.toNat + n)]
    else natReprAux fuel (n / 10) ++ [Char.ofNat ('0'.toNat + n % 10)]

/-- Decimal digit string of a natural number (Python `str` of a nonnegative
int). -/
def natRepr (n : Nat) : PyStr := natReprAux (n + 1) n

/-- Python `str` of an int: optional minus sign followed by decimal digits. -/
def pyIntRepr (i : Int) : PyStr :=
  if i < 0 then '-' :: natRepr (-i).toNat else natRepr i.toNat

/-- Python `repr`/`str` of a float.  Exact on whole-number floats (the only
float value any claim re-parses is the tempo `128.0`); other rationals are
rendered as `num/den`, a placeholder whose text no modelled code re-reads. -/
def pyFloatRepr (q : ℚ) : PyStr :=
  if q.den = 1 then pyIntRepr q.num ++ pys ".0"
  else pyIntRepr q.num ++ '/' :: natRepr q.den

/-- Python `int()` applied to a float value: truncation toward zero. -/
def pyInt (q : ℚ) : Int := if 0 ≤ q then ⌊q⌋ else ⌈q⌉

/-- Python `round()` applied to a float value: round-half-to-even. -/
def pyRound (q : ℚ) : Int :=
  if q - ⌊q⌋ = 1 / 2 then (if 2 ∣ ⌊q⌋ then ⌊q⌋ else ⌊q⌋ + 1) else round q

/-- The character class `[^"]`. -/
def neQuote (c : Char) : Bool := c ≠ '"'

/-- The character class `[^\x7d]`. -/
def neBrace (c : Char) : Bool := c ≠ '\x7d'

/-- `re.search(r'"([^"]*)"', s)`: first double-quoted group, if any. -/
def firstQuoted : PyStr → Option PyStr
  | [] => none
  | '"' :: rest =>
    match rest.dropWhile neQuote with
    | '"' :: _ => some (rest.takeWhile neQuote)
    | _ => none
  | _ :: rest => firstQuoted rest

/-- `re.search` for a brace-delimited nonempty group: first `\x7b`…`\x7d`
pair with a nonempty interior, if any. -/
def firstBraced : PyStr → Option PyStr
  | [] => none
  | '\x7b' :: rest =>
    match rest.dropWhile neBrace with
    | '\x7d' :: _ =>
      if rest.takeWhile neBrace = [] then firstBraced rest
      else some (rest.takeWhile neBrace)
    | _ => none
  | _ :: rest => firstBraced rest

/-- Python `list.index` returning `none` instead of raising `ValueError`. -/
def pyListIndex (x : PyStr) : List PyStr → Option Nat
  | [] => none
  | y :: r => if y = x then some 0 else (pyListIndex x r).map (· + 1)

/-! ## src/monk/midi.py -/

/-- `NOTE_NAMES` from midi.py. -/
def noteNames : List PyStr :=
  [pys "C", pys "C#", pys "D", pys "D#", pys "E", pys "F", pys "F#",
   pys "G", pys "G#", pys "A", pys "A#", pys "B"]

/-- `GM_DRUMS` from midi.py, in insertion order. -/
def gmDrums : List (PyStr × Int) :=
  [(pys "kick", 36), (pys "snare", 38), (pys "rimshot", 37), (pys "clap", 39),
   (pys "hihat_closed", 42), (pys "hihat_open", 46), (pys "hihat_pedal", 44),
   (pys "tom_low", 45), (pys "tom_mid", 47), (pys "tom_high", 50),
   (pys "crash", 49), (pys "ride", 51), (pys "ride_bell", 53)]

/-- Dict lookup `GM_DRUMS[name]` / membership test `name in GM_DRUMS`. -/
def lookupDrum (n : PyStr) : Option Int :=
  (gmDrums.find? (fun p => p.1 == n)).map Prod.snd

/-- `note_name_to_midi` from midi.py, embedded faithfully: the source first
executes `name = name.replace("b", "")`, deleting every lowercase `b` from the
name, so the later flat-handling branch (`if "b" in octave_part`) can never
fire. -/
def noteNameToMidi (name0 : PyStr) : Except PyStr Int :=
  let name1 := pyStrip name0
  -- name = name.replace("b", "")   (the following `if "b" in name: pass` is a no-op)
  let name := name1.filter (· ≠ 'b')
  match name with
  | [] => Except.error (pys "Invalid note name: " ++ name)
  | [_] => Except.error (pys "Invalid note name: " ++ name)
  | a :: b :: rest =>
    let np0 : PyStr := if b = '#' then [a, b] else [a]
    let op0 : PyStr := if b = '#' then rest else b :: rest
    -- `if "b" in octave_part:` — dead in practice, kept for faithfulness
    let stepped : Except PyStr (PyStr × PyStr) :=
      if op0.contains 'b' then
        match pyListIndex (np0.map Char.toUpper) noteNames with
        | none => Except.error (pys "ValueError: not in list")
        | some i => Except.ok (noteNames.getD ((i + 11) % 12) [], op0.filter (· ≠ 'b'))
      else Except.ok (np0, op0)
    match stepped with
    | Except.error e => Except.error e
    | Except.ok (np, op) =>
      match pyListIndex (np.map Char.toUpper) noteNames, pyParseInt op with
      | some idx, some octave =>
        let midi : Int := (octave + 1) * 12 + idx
        if 0 ≤ midi ∧ midi ≤ 127 then Except.ok midi
        else Except.error (pys "Note " ++ name ++ pys " is out of MIDI range (0-127)")
      | _, _ => Except.error (pys "Invalid note name: " ++ name)

/-- `midi_to_note_name` from midi.py.  Python `//` and `%` are floor
division and floor modulus, hence `Int.fdiv` / `Int.fmod`. -/
def midiToNoteName (m : Int) : PyStr :=
  let octave := m.fdiv 12 - 1
  let idx := m.fmod 12
  noteNames.getD idx.toNat [] ++ pyIntRepr octave

/-- The `Note` dataclass from midi.py.  Beat positions and durations are
Python floats, embedded as rationals. -/
structure Note where
  pitch : Int
  start_beat : ℚ
  duration_beats : ℚ
  velocity : Int := 100
deriving DecidableEq

/-- `Note.start_ticks`: `int(self.start_beat * ticks_per_beat)`. -/
def Note.start_ticks (n : Note) (ticks_per_beat : Int) : Int :=
  pyInt (n.start_beat * (ticks_per_beat : ℚ))

/-- `Note.duration_ticks`: `int(self.duration_beats * ticks_per_beat)`. -/
def Note.duration_ticks (n : Note) (ticks_per_beat : Int) : Int :=
  pyInt (n.duration_beats * (ticks_per_beat : ℚ))

/-- One entry of the `events` list built by `create_midi_file`: the Python
tuple `(absolute_time, msg_type, pitch, velocity)`. -/
structure MidiEvent where
  time : Int
  kind : PyStr
  pitch : Int
  velocity : Int
deriving DecidableEq

/-- The `events` list of `create_midi_file` before sorting: for each note an
`"note_on"` entry at its start tick and a `"note_off"` entry at start plus
duration ticks, in note order. -/
def noteEvents (notes : List Note) (tpb : Int) : List MidiEvent :=
  notes.foldr
    (fun n acc =>
      ⟨n.start_ticks tpb, pys "note_on", n.pitch, n.velocity⟩ ::
        ⟨n.start_ticks tpb + n.duration_ticks tpb, pys "note_off", n.pitch, 0⟩ :: acc)
    []

/-- The sort order `key=lambda e: (e[0], e[1] == "note_on")`: ascending
absolute time, and at equal times `False < True`, i.e. note-off entries
before note-on entries. -/
def eventLE (a b : MidiEvent) : Bool :=
  decide (a.time < b.time) ||
    (decide (a.time = b.time) &&
      (!(a.kind == pys "note_on") || (b.kind == pys "note_on")))

/-- The comparison of `eventLE` as a proposition. -/
def eventLEP (a b : MidiEvent) : Prop := eventLE a b = true

instance : DecidableRel eventLEP := fun a b => instDecidableEqBool (eventLE a b) true

/-- The sorted event list of `create_midi_file`.  Python's `list.sort` is a
stable sort on the key `(time, kind == "note_on")`; every stable sort
computes the same list for a total transitive comparison, so insertion sort
embeds it faithfully. -/
def sortedEvents (notes : List Note) (tpb : Int) : List MidiEvent :=
  (noteEvents notes tpb).insertionSort eventLEP

/-- A message appended to the mido track: either a `MetaMessage` carrying one
integer payload or a channel `Message` with note, velocity and delta time. -/
inductive TrackMsg where
  | meta (kind : PyStr) (value : Int) (time : Int)
  | msg (kind : PyStr) (note : Int) (velocity : Int) (time : Int)
deriving DecidableEq

/-- `mido.Message(...)` validation: mido raises unless the note and velocity
lie in 0–127; the delta time is not range-checked. -/
def mkMessage (kind : PyStr) (note velocity time : Int) : Except PyStr TrackMsg :=
  if 0 ≤ note ∧ note ≤ 127 then
    if 0 ≤ velocity ∧ velocity ≤ 127 then Except.ok (TrackMsg.msg kind note velocity time)
    else Except.error (pys "velocity out of range")
  else Except.error (pys "note out of range")

/-- The delta-time loop of `create_midi_file`: each event becomes a message
whose time is its absolute time minus the previous event's absolute time. -/
def deltaEncode : List MidiEvent → Int → Except PyStr (List TrackMsg)
  | [], _ => Except.ok []
  | e :: rest, current => do
    let m ← mkMessage e.kind e.pitch e.velocity (e.time - current)
    let ms ← deltaEncode rest e.time
    pure (m :: ms)

/-- `mido.bpm2tempo`: `int(round(60 * 1000 * 1000 / bpm))`. -/
def bpm2tempo (bpm : Int) : Int := pyRound ((60000000 : ℚ) / (bpm : ℚ))

/-- `mido.MetaMessage("set_tempo", tempo=..., time=0)`: mido validates the
tempo value into the three-byte range 0–16777215 at construction and raises
`ValueError` otherwise. -/
def mkSetTempoMeta (tempo : Int) : Except PyStr TrackMsg :=
  if 0 ≤ tempo ∧ tempo ≤ 16777215 then
    Except.ok (TrackMsg.meta (pys "set_tempo") tempo 0)
  else Except.error (pys "tempo out of range 0..16777215")

/-- The delta time carried by a message. -/
def TrackMsg.time : TrackMsg → Int
  | TrackMsg.meta _ _ t => t
  | TrackMsg.msg _ _ _ t => t

/-- `mid.save(...)`: mido encodes every message's delta time as a
variable-length integer and raises `ValueError` from `encode_variable_int`
for a negative delta; the `Except.ok` payload is the saved track. -/
def midoSave (msgs : List TrackMsg) : Except PyStr (List TrackMsg) :=
  if msgs.all (fun m => 0 ≤ m.time) then Except.ok msgs
  else Except.error (pys "variable int must be a non-negative integer")

/-- `create_midi_file` from midi.py.  The `Except.ok` payload is the track
content written to the output file (tempo meta event, delta-encoded note
events, end-of-track marker); `Except.error` models an exception raised by
the function: `ZeroDivisionError` for a zero tempo, mido's `set_tempo` range
check at meta-message construction, the pitch/velocity range checks at
channel-message construction, and the non-negative-delta check when the file
is saved. -/
def create_midi_file (notes : List Note) (tempo_bpm : Int := 120)
    (ticks_per_beat : Int := 480) : Except PyStr (List TrackMsg) := do
  if tempo_bpm = 0 then
    throw (pys "ZeroDivisionError: division by zero")
  let tempoMsg ← mkSetTempoMeta (bpm2tempo tempo_bpm)
  let body ← deltaEncode (sortedEvents notes ticks_per_beat) 0
  midoSave (tempoMsg :: body ++ [TrackMsg.meta (pys "end_of_track") 0 0])

/-- The string `list(GM_DRUMS.keys())` interpolated into the unknown-drum
error: a bracketed, comma-separated list of quoted names. -/
def validDrumListRepr : PyStr :=
  '[' :: (List.intercalate (pys ", ")
    (gmDrums.map (fun p => Char.ofNat 39 :: p.1 ++ [Char.ofNat 39]))) ++ [']']

/-- The message of the `ValueError` raised by `create_drum_pattern` on an
unknown drum name. -/
def unknownDrumMsg (name : PyStr) : PyStr :=
  pys "Unknown drum: " ++ name ++ pys ". Valid: " ++ validDrumListRepr

/-- The note-building loop of `create_drum_pattern`: for each requested drum
in dict order, either fail on an unknown name or emit one short note per bar
and beat offset. -/
def drumNotes : List (PyStr × List ℚ) → Nat → Int → Except PyStr (List Note)
  | [], _, _ => Except.ok []
  | (dn, beats) :: rest, bars, velocity =>
    match lookupDrum dn with
    | none => Except.error (unknownDrumMsg dn)
    | some pitch => do
      let here := (List.range bars).flatMap (fun bar =>
        beats.map (fun beat =>
          ({ pitch := pitch, start_beat := (bar : ℚ) * 4 + beat,
             duration_beats := 1 / 10, velocity := velocity } : Note)))
      let more ← drumNotes rest bars velocity
      pure (here ++ more)

/-- `create_drum_pattern` from midi.py.  The pattern dict is embedded as an
insertion-ordered association list.  The `Except.ok` payload is the track
content written to the output file; `Except.error` models an exception raised
before any file is written. -/
def create_drum_pattern (pattern : List (PyStr × List ℚ)) (bars : Nat := 4)
    (tempo_bpm : Int := 120) (velocity : Int := 100) : Except PyStr (List TrackMsg) := do
  let notes ← drumNotes pattern bars velocity
  create_midi_file notes tempo_bpm 480

/-! ## src/monk/rpp.py

Project text is modelled at line granularity: serialization produces the list
of lines `save` writes (each without its trailing newline) and parsing
consumes the list of lines `readlines` returns.  The two agree with the
on-disk byte stream whenever no interpolated string contains a newline, which
the theorems assume explicitly where it matters. -/

/-- The `MidiItem` dataclass from rpp.py. -/
structure RppMidiItem where
  path : PyStr
  position : ℚ
  length : ℚ
deriving DecidableEq

/-- The `Track` dataclass from rpp.py. -/
structure RppTrack where
  name : PyStr
  index : Int
  guid : PyStr
  midi_items : List RppMidiItem
deriving DecidableEq

/-- The mutable state of a `ReaperProject` (the fields the codec reads and
writes; the `path` and `_raw_lines` bookkeeping fields play no part in any
claim and are omitted). -/
structure ReaperProject where
  tempo : ℚ
  time_signature : Int × Int
  sample_rate : Int
  render_file : PyStr
  tracks : List RppTrack
deriving DecidableEq

/-- The field defaults assigned by `ReaperProject.__init__`. -/
def ReaperProject.init : ReaperProject :=
  { tempo := 120, time_signature := (4, 4), sample_rate := 44100,
    render_file := pys "render", tracks := [] }

/-- One step of the metadata loop of `_load`: the state is
`(tempo, sample_rate, render_file)`; a `ValueError` from `float()`/`int()`
aborts the load. -/
def metaStep (st : ℚ × Int × PyStr) (line : PyStr) : Except PyStr (ℚ × Int × PyStr) :=
  let l := pyStrip line
  if pyStartsWith l (pys "TEMPO ") then
    let parts := pySplit l
    if parts.length ≥ 2 then
      match pyParseFloat (parts.getD 1 []) with
      | some v => Except.ok (v, st.2.1, st.2.2)
      | none => Except.error (pys "ValueError: could not convert string to float")
    else Except.ok st
  else if pyStartsWith l (pys "SAMPLERATE ") then
    let parts := pySplit l
    if parts.length ≥ 2 then
      match pyParseInt (parts.getD 1 []) with
      | some v => Except.ok (st.1, v, st.2.2)
      | none => Except.error (pys "ValueError: invalid literal for int")
    else Except.ok st
  else if pyStartsWith l (pys "RENDER_FILE ") then
    match firstQuoted l with
    | some g => Except.ok (st.1, st.2.1, g)
    | none => Except.ok st
  else Except.ok st

/-- The state of the track loop of `_load`; `ctr` counts the fresh
identifiers drawn from the supply for tracks without a braced guid. -/
structure TrackScan where
  tracks : List RppTrack
  in_track : Bool
  current : Option RppTrack
  track_idx : Nat
  ctr : Nat
deriving DecidableEq

/-- One step of the track loop of `_load`. -/
def trackStep (ids : Nat → PyStr) (st : TrackScan) (line : PyStr) : TrackScan :=
  let stripped := pyStrip line
  if pyStartsWith stripped (pys "<TRACK") then
    let gc : PyStr × Nat :=
      match firstBraced stripped with
      | some g => (g, st.ctr)
      | none => (ids st.ctr, st.ctr + 1)
    { st with
        in_track := true
        current := some { name := pys "Track " ++ natRepr (st.track_idx + 1),
                          index := (st.track_idx : Int), guid := gc.1, midi_items := [] }
        track_idx := st.track_idx + 1
        ctr := gc.2 }
  else if st.in_track && pyStartsWith stripped (pys "NAME ") then
    match firstQuoted stripped, st.current with
    | some nm, some cur => { st with current := some { cur with name := nm } }
    | _, _ => st
  else if st.in_track && stripped == pys ">" then
    { st with
        tracks := (match st.current with
                   | some cur => st.tracks ++ [cur]
                   | none => st.tracks)
        current := none
        in_track := false }
  else st

/-- `ReaperProject._load` over a list of lines: the metadata loop (which can
raise from `float()`/`int()`), then the track loop. -/
def loadLines (ids : Nat → PyStr) (lines : List PyStr) : Except PyStr ReaperProject := do
  let md ← lines.foldlM metaStep (120, 44100, pys "render")
  let ts := lines.foldl (trackStep ids) ⟨[], false, none, 0, 0⟩
  pure { tempo := md.1, time_signature := (4, 4), sample_rate := md.2.1,
         render_file := md.2.2, tracks := ts.tracks }

/-- Wrap a guid in braces, as the `f"\x7b\x7b\x7b...\x7d\x7d\x7d"` pattern of
`_generate_track` does. -/
def braced (g : PyStr) : PyStr := pys "\x7b" ++ g ++ pys "\x7d"

/-- `Path(...).stem`: final path component without its last suffix. -/
def pyStem (p : PyStr) : PyStr :=
  let name := (p.reverse.takeWhile (· ≠ '/')).reverse
  let tail := name.reverse.takeWhile (· ≠ '.')
  if tail.length < name.length then
    let i := name.length - tail.length - 1
    if 0 < i ∧ i < name.length - 1 then name.take i else name
  else name

/-- `ReaperProject._generate_reasynth_fx`; draws one fresh identifier. -/
def generateReasynthFx (ids : Nat → PyStr) (c : Nat) : List PyStr × Nat :=
  ([pys "    <FXCHAIN",
    pys "      SHOW 0",
    pys "      LASTSEL 0",
    pys "      DOCKED 0",
    pys "      BYPASS 0 0 0",
    pys "      <VST \"VSTi: ReaSynth (Cockos)\" reasynth.vst.dylib 0 \"\" 1919251321<5653546872736E7265617379>",
    pys "        eXNlcu5e7f4CAAAAAQAAAAAAAAACAAAAAAAAAAIAAAABAAAAAAAAAAIAAAAAAAAAPAAAAAAAAAAAABA",
    pys "        AAAAAAAAAAAAQAAAAAAAAAAAAAAAAAAAAAAAAAAAAAAAAAAAAAAAAAAAAAAAAAAAAAAAAAAAAAAAAAAA",
    pys "        AAAAAAAAAAAAAAAAAAAAAAAAAAAAAAAAAAAAAAAAAAAAAAAAAAAA",
    pys "        AAAQAAAA",
    pys "      >",
    pys "      FLOATPOS 0 0 0 0",
    pys "      FXID " ++ braced (ids c),
    pys "      WAK 0 0",
    pys "    >"], c + 1)

/-- `ReaperProject._generate_midi_item`; draws two fresh identifiers. -/
def generateMidiItem (ids : Nat → PyStr) (c : Nat) (item : RppMidiItem) : List PyStr × Nat :=
  ([pys "    <ITEM",
    pys "      POSITION " ++ pyFloatRepr item.position,
    pys "      SNAPOFFS 0",
    pys "      LENGTH " ++ pyFloatRepr item.length,
    pys "      LOOP 1",
    pys "      ALLTAKES 0",
    pys "      FADEIN 1 0.01 0 1 0 0 0",
    pys "      FADEOUT 1 0.01 0 1 0 0 0",
    pys "      MUTE 0 0",
    pys "      SEL 0",
    pys "      IGUID " ++ braced (ids c),
    pys "      IID 1",
    pys "      NAME \"" ++ pyStem item.path ++ pys "\"",
    pys "      VOLPAN 1 0 1 -1",
    pys "      PLAYRATE 1 1 0 -1 0 0.0025",
    pys "      CHANMODE 0",
    pys "      GUID " ++ braced (ids (c + 1)),
    pys "      <SOURCE MIDI",
    pys "        HASDATA 1 960 QN",
    pys "        FILE \"" ++ item.path ++ pys "\"",
    pys "      >",
    pys "    >"], c + 2)

/-- The item loop of `_generate_track`. -/
def generateItems (ids : Nat → PyStr) (c : Nat) : List RppMidiItem → List PyStr × Nat
  | [] => ([], c)
  | it :: rest =>
    let a := generateMidiItem ids c it
    let b := generateItems ids a.2 rest
    (a.1 ++ b.1, b.2)

/-- `ReaperProject._generate_track` (with its default `add_synth=True`). -/
def generateTrack (ids : Nat → PyStr) (c : Nat) (track : RppTrack) : List PyStr × Nat :=
  let guid := braced track.guid
  let head := [pys "  <TRACK " ++ guid,
    pys "    NAME \"" ++ track.name ++ pys "\"",
    pys "    PEAKCOL 16576",
    pys "    BEAT -1",
    pys "    AUTOMODE 0",
    pys "    VOLPAN 1 0 -1 -1 1",
    pys "    REC 0 0 1 0 0 0 0 0",
    pys "    VU 2",
    pys "    NCHAN 2",
    pys "    FX 1",
    pys "    TRACKID " ++ guid,
    pys "    PERF 0",
    pys "    MIDIOUT -1",
    pys "    MAINSEND 1 0"]
  let fx : List PyStr × Nat :=
    if track.midi_items.isEmpty then ([], c) else generateReasynthFx ids c
  let items := generateItems ids fx.2 track.midi_items
  (head ++ fx.1 ++ items.1 ++ [pys "  >"], items.2)

/-- The track loop of `_generate_new_project`. -/
def generateTracks (ids : Nat → PyStr) (c : Nat) : List RppTrack → List PyStr × Nat
  | [] => ([], c)
  | t :: rest =>
    let a := generateTrack ids c t
    let b := generateTracks ids a.2 rest
    (a.1 ++ b.1, b.2)

/-- `ReaperProject._generate_new_project` =
`_rebuild_content` = the lines `save` writes. -/
def generateNewProject (ids : Nat → PyStr) (p : ReaperProject) : List PyStr :=
  [pys "<REAPER_PROJECT 0.1 \"7.0\" 1704067200",
   pys "  RIPPLE 0",
   pys "  GROUPOVERRIDE 0 0 0",
   pys "  AUTOXFADE 1",
   pys "  SAMPLERATE " ++ pyIntRepr p.sample_rate ++ pys " 0 0",
   pys "  TEMPO " ++ pyFloatRepr p.tempo ++ pys " 4 4",
   pys "  PLAYRATE 1 0 0.25 4",
   pys "  MASTERTRACKHEIGHT 0 0",
   pys "  MASTERTRACKVIEW 0 0.6667 0.5 0.5 -1 -1 -1 0 0 0 -1 -1 0",
   pys "  MASTERHWOUT 0 0 1 0 0 0 0 -1",
   pys "  MASTER_NCH 2 2",
   pys "  MASTER_VOLUME 1 0 -1 -1 1",
   pys "  MASTER_FX 1",
   pys "  MASTER_SEL 0",
   pys "  RENDER_FILE \"" ++ p.render_file ++ pys "\"",
   pys "  RENDER_PATTERN \"\"",
   pys "  RENDER_FMT 0 2 0",
   pys "  RENDER_1X 0",
   pys "  RENDER_RANGE 1 0 0 18 1000",
   pys "  RENDER_RESAMPLE 3 0 1",
   pys "  RENDER_ADDTOPROJ 0",
   pys "  RENDER_STEMS 0",
   pys "  RENDER_DITHER 0"]
  ++ (generateTracks ids 0 p.tracks).1
  ++ [pys ">"]

/-- Modify the element of a list at a (already nonnegative) index. -/
def listModify {α : Type} : List α → Nat → (α → α) → List α
  | [], _, _ => []
  | a :: r, 0, f => f a :: r
  | a :: r, n + 1, f => a :: listModify r n f

/-- Python list subscripting `xs[i]` index normalization: a negative index
counts from the end; `none` models the `IndexError` raised when the index is
out of range either way. -/
def pyIndexNorm (len : Nat) (i : Int) : Option Nat :=
  if 0 ≤ i then (if i < (len : Int) then some i.toNat else none)
  else (if -i ≤ (len : Int) then some (len - (-i).toNat) else none)

/-- `ReaperProject.add_midi_item`.  The `length` argument mirrors the source's
optional parameter; when it is absent the source opens the referenced file
with mido, modelled by the external oracle `midoLength` (which can fail with
`FileNotFoundError`/decode errors). -/
def add_midi_item (p : ReaperProject) (track_index : Int) (midi_path : PyStr)
    (position : ℚ) (length : Option ℚ) (midoLength : PyStr → Except PyStr ℚ) :
    Except PyStr ReaperProject := do
  if track_index ≥ (p.tracks.length : Int) then
    throw (pys "Track index " ++ pyIntRepr track_index ++ pys " out of range")
  let len ← match length with
    | some l => pure l
    | none => midoLength midi_path
  match pyIndexNorm p.tracks.length track_index with
  | none => throw (pys "IndexError: list index out of range")
  | some k =>
    pure { p with
             tracks := listModify p.tracks k (fun t =>
               { t with midi_items := t.midi_items ++
                   [{ path := midi_path, position := position, length := len }] }) }

/-- A concrete identifier supply used by concrete instances in the theorems
below (uuid values are opaque strings to the codec). -/
def uidSupply (n : Nat) : PyStr := pys "uid-" ++ natRepr n

deriving instance DecidableEq for Except

/-! ## Theorems -/

set_option maxRecDepth 100000

/-- Helper for C6: the round trip checked pointwise over all 128 pitches. -/
theorem noteName_roundTrip_fin :
    ∀ p : Fin 128, noteNameToMidi (midiToNoteName ((p : Nat) : Int)) =
        Except.ok ((p : Nat) : Int) ∧
      (midiToNoteName ((p : Nat) : Int)).contains 'b' = false := by decide

/-- C6: for every pitch 0–127, `midi_to_note_name` produces a flat-free name
and `note_name_to_midi` maps it back to the same pitch. -/
theorem pitch_noteName_roundTrip (p : Int) (h0 : 0 ≤ p) (h1 : p ≤ 127) :
    noteNameToMidi (midiToNoteName p) = Except.ok p ∧
      (midiToNoteName p).contains 'b' = false := by
  have hh : p.toNat < 128 := by omega
  have hfin := noteName_roundTrip_fin ⟨p.toNat, hh⟩
  simpa [Int.toNat_of_nonneg h0] using hfin

/-- Witness for C6 at pitch 60. -/
theorem pitch_noteName_roundTrip_witness :
    (0 : Int) ≤ 60 ∧ (60 : Int) ≤ 127 ∧
      (noteNameToMidi (midiToNoteName 60) = Except.ok 60 ∧
        (midiToNoteName 60).contains 'b' = false) :=
  ⟨by decide, by decide, pitch_noteName_roundTrip 60 (by decide) (by decide)⟩

/-- C5: `note_name_to_midi` deletes every lowercase `b` before parsing, so
flat spellings are mis-parsed — `"Bb3"` yields 59 (B3) instead of 58 and
`"Db4"` yields 62 (D4) instead of 61 — and a lowercase `"b3"` raises instead
of yielding 59; lowercase `"c4"` is parsed as claimed. -/
theorem flat_names_mistranslated :
    noteNameToMidi (pys "Bb3") = Except.ok 59 ∧
      noteNameToMidi (pys "Db4") = Except.ok 62 ∧
      noteNameToMidi (pys "c4") = Except.ok 60 ∧
      noteNameToMidi (pys "b3") = Except.error (pys "Invalid note name: 3") := by
  decide

/-- Helper: the unsorted event list contains the on event of every note. -/
theorem mem_noteEvents_on (notes : List Note) (tpb : Int) (n : Note) (h : n ∈ notes) :
    (⟨n.start_ticks tpb, pys "note_on", n.pitch, n.velocity⟩ : MidiEvent) ∈
      noteEvents notes tpb := by
  induction notes with
  | nil => cases h
  | cons m rest ih =>
    rcases List.mem_cons.mp h with h | h
    · subst h; simp [noteEvents]
    · simp [noteEvents]; right; right; exact ih h

/-- Helper: the unsorted event list contains the off event of every note. -/
theorem mem_noteEvents_off (notes : List Note) (tpb : Int) (n : Note) (h : n ∈ notes) :
    (⟨n.start_ticks tpb + n.duration_ticks tpb, pys "note_off", n.pitch, 0⟩ : MidiEvent) ∈
      noteEvents notes tpb := by
  induction notes with
  | nil => cases h
  | cons m rest ih =>
    rcases List.mem_cons.mp h with h | h
    · subst h; simp [noteEvents]
    · simp [noteEvents]; right; right; exact ih h

/-- C4 (amended): for every note, the encoded stream contains a note-on event
at tick `int(startBeat*ticksPerBeat)` — truncation toward zero, not rounding
to nearest — and a note-off event at that tick plus
`int(durationBeats*ticksPerBeat)`. -/
theorem event_ticks_truncation (notes : List Note) (tpb : Int) (n : Note) (h : n ∈ notes) :
    (⟨pyInt (n.start_beat * (tpb : ℚ)), pys "note_on", n.pitch, n.velocity⟩ : MidiEvent) ∈
        sortedEvents notes tpb ∧
      (⟨pyInt (n.start_beat * (tpb : ℚ)) + pyInt (n.duration_beats * (tpb : ℚ)),
          pys "note_off", n.pitch, 0⟩ : MidiEvent) ∈ sortedEvents notes tpb := by
  constructor
  · exact (List.mem_insertionSort eventLEP).mpr (mem_noteEvents_on notes tpb n h)
  · exact (List.mem_insertionSort eventLEP).mpr (mem_noteEvents_off notes tpb n h)

/-- Witness for C4's amended statement at a concrete note. -/
theorem event_ticks_truncation_witness :
    (⟨60, 1 / 128, 1, 100⟩ : Note) ∈ [(⟨60, 1 / 128, 1, 100⟩ : Note)] ∧
      ((⟨pyInt ((1 / 128 : ℚ) * (480 : ℚ)), pys "note_on", 60, 100⟩ : MidiEvent) ∈
          sortedEvents [⟨60, 1 / 128, 1, 100⟩] 480 ∧
        (⟨pyInt ((1 / 128 : ℚ) * (480 : ℚ)) + pyInt ((1 : ℚ) * (480 : ℚ)),
            pys "note_off", 60, 0⟩ : MidiEvent) ∈ sortedEvents [⟨60, 1 / 128, 1, 100⟩] 480) :=
  ⟨List.mem_singleton.mpr rfl,
    event_ticks_truncation [⟨60, 1 / 128, 1, 100⟩] 480 ⟨60, 1 / 128, 1, 100⟩
      (List.mem_singleton.mpr rfl)⟩

/-- C4 (counterexample): for the note starting at beat 1/128 with 480 ticks
per beat the product is 3.75; the claimed rounding gives tick 4, but the
encoder emits the on event at tick 3 (truncation). -/
theorem startTick_truncates_not_rounds_cex :
    (sortedEvents [⟨60, 1 / 128, 1, 100⟩] 480).map MidiEvent.time = [3, 483] ∧
      pyRound ((1 / 128 : ℚ) * 480) = 4 ∧ (3 : Int) ≠ 4 := by
  refine ⟨?_, ?_, by decide⟩ <;> with_unfolding_all decide

instance : IsTotal MidiEvent eventLEP where
  total a b := by
    unfold eventLEP eventLE
    rcases lt_trichotomy a.time b.time with h | h | h
    · left; simp [h]
    · cases hb : (b.kind == pys "note_on")
      · right; simp [h, hb]
      · left; simp [h, hb]
    · right; simp [h]

instance : IsTrans MidiEvent eventLEP where
  trans a b c hab hbc := by
    unfold eventLEP eventLE at *
    simp only [Bool.or_eq_true, Bool.and_eq_true, Bool.not_eq_true',
      decide_eq_true_eq] at *
    rcases hab with h₁ | ⟨h₁, p₁⟩
    · rcases hbc with h₂ | ⟨h₂, _⟩
      · left; omega
      · left; omega
    · rcases hbc with h₂ | ⟨h₂, p₂⟩
      · left; omega
      · right
        refine ⟨by omega, ?_⟩
        rcases p₁ with p₁ | p₁
        · left; exact p₁
        · rcases p₂ with p₂ | p₂
          · rw [p₁] at p₂; cases p₂
          · right; exact p₂

/-- Helper: the encoder's sorted event stream is pairwise ordered by the sort
key `(time, kind == "note_on")`. -/
theorem sortedEvents_pairwise (notes : List Note) (tpb : Int) :
    (sortedEvents notes tpb).Pairwise eventLEP :=
  List.sorted_insertionSort eventLEP (noteEvents notes tpb)

/-- C3: in the encoded event stream, whenever a note-on and a note-off occupy
the same absolute tick, the note-off's position is strictly earlier: an
on event at position `i` and an off event at position `j` with equal times
force `j < i`. -/
theorem off_before_on_at_equal_tick (notes : List Note) (tpb : Int) (i j : Nat)
    (hi : i < (sortedEvents notes tpb).length) (hj : j < (sortedEvents notes tpb).length)
    (hon : ((sortedEvents notes tpb).get ⟨i, hi⟩).kind = pys "note_on")
    (hoff : ((sortedEvents notes tpb).get ⟨j, hj⟩).kind = pys "note_off")
    (ht : ((sortedEvents notes tpb).get ⟨i, hi⟩).time =
      ((sortedEvents notes tpb).get ⟨j, hj⟩).time) :
    j < i := by
  rcases Nat.lt_trichotomy i j with hij | hij | hij
  · exfalso
    have hp := (List.pairwise_iff_getElem.mp (sortedEvents_pairwise notes tpb)) i j hi hj hij
    unfold eventLEP eventLE at hp
    simp only [Bool.or_eq_true, Bool.and_eq_true, Bool.not_eq_true',
      decide_eq_true_eq] at hp
    have hgi : (sortedEvents notes tpb)[i] = (sortedEvents notes tpb).get ⟨i, hi⟩ := rfl
    have hgj : (sortedEvents notes tpb)[j] = (sortedEvents notes tpb).get ⟨j, hj⟩ := rfl
    rw [hgi, hgj] at hp
    rcases hp with h | ⟨_, p⟩
    · omega
    · rcases p with p | p
      · rw [hon] at p; simp at p
      · rw [hoff] at p; simp [pys] at p
  · exfalso
    subst hij
    rw [hon] at hoff
    simp [pys] at hoff
  · exact hij

/-- Helper: with an unknown drum somewhere in the pattern, the note-building
loop fails with the unknown-drum message of the first unknown name. -/
theorem drumNotes_error (pattern : List (PyStr × List ℚ)) (bars : Nat) (velocity : Int)
    (h : ∃ p ∈ pattern, lookupDrum p.1 = none) :
    ∃ bad, lookupDrum bad = none ∧
      drumNotes pattern bars velocity = Except.error (unknownDrumMsg bad) := by
  induction pattern with
  | nil => simp at h
  | cons pr rest ih =>
    obtain ⟨dn, beats⟩ := pr
    match hl : lookupDrum dn with
    | none => exact ⟨dn, hl, by simp [drumNotes, hl]⟩
    | some pitch =>
      have h' : ∃ p ∈ rest, lookupDrum p.1 = none := by
        rcases h with ⟨p, hp, hnone⟩
        rcases List.mem_cons.mp hp with rfl | hp
        · simp only at hnone; rw [hl] at hnone; cases hnone
        · exact ⟨p, hp, hnone⟩
      obtain ⟨bad, hb1, hb2⟩ := ih h'
      exact ⟨bad, hb1, by simp [drumNotes, hl, hb2, bind, Except.bind]⟩

/-- C8: if any requested drum name is absent from the drum table,
`create_drum_pattern` fails before writing any file, with an error message
that contains every valid drum name (the message embeds the full
`list(GM_DRUMS.keys())`), and no state is touched. -/
theorem unknown_drum_rejected (pattern : List (PyStr × List ℚ)) (bars : Nat)
    (tempo velocity : Int) (h : ∃ p ∈ pattern, lookupDrum p.1 = none) :
    ∃ bad, lookupDrum bad = none ∧
      create_drum_pattern pattern bars tempo velocity = Except.error (unknownDrumMsg bad) ∧
      ∀ d ∈ gmDrums, d.1 <:+: unknownDrumMsg bad := by
  obtain ⟨bad, hb1, hb2⟩ := drumNotes_error pattern bars velocity h
  refine ⟨bad, hb1, ?_, ?_⟩
  · simp [create_drum_pattern, hb2, bind, Except.bind]
  · intro d hd
    have hvalid : d.1 <:+: validDrumListRepr := by
      fin_cases hd <;> decide
    have hsuf : validDrumListRepr <:+ unknownDrumMsg bad :=
      ⟨pys "Unknown drum: " ++ bad ++ pys ". Valid: ", by
        simp [unknownDrumMsg, List.append_assoc]⟩
    exact hvalid.trans hsuf.isInfix

/-- Witness for C8: requesting the unknown drum `"cowbell"`. -/
theorem unknown_drum_rejected_witness :
    (∃ p ∈ [(pys "cowbell", [(0 : ℚ)])], lookupDrum p.1 = none) ∧
      ∃ bad, lookupDrum bad = none ∧
        create_drum_pattern [(pys "cowbell", [(0 : ℚ)])] 4 120 100 =
          Except.error (unknownDrumMsg bad) ∧
        ∀ d ∈ gmDrums, d.1 <:+: unknownDrumMsg bad :=
  ⟨⟨(pys "cowbell", [(0 : ℚ)]), List.mem_singleton.mpr rfl, by decide⟩,
    unknown_drum_rejected [(pys "cowbell", [(0 : ℚ)])] 4 120 100
      ⟨(pys "cowbell", [(0 : ℚ)]), List.mem_singleton.mpr rfl, by decide⟩⟩

/-- C10: with a nonempty track list, a negative `track_index` whose magnitude
is at most the track count passes `add_midi_item`'s range check (which only
tests `track_index >= len(self.tracks)`), raises nothing, and appends the
item to the track at Python-style negative position — index
`len(tracks) - |track_index|` from the front. -/
theorem negative_track_index_appends (p : ReaperProject) (t : Int) (path : PyStr)
    (pos len : ℚ) (oracle : PyStr → Except PyStr ℚ)
    (hne : p.tracks ≠ []) (hneg : t < 0) (hbound : -t ≤ (p.tracks.length : Int)) :
    add_midi_item p t path pos (some len) oracle =
      Except.ok { p with
                    tracks := listModify p.tracks (p.tracks.length - (-t).toNat) (fun tr =>
                      { tr with midi_items := tr.midi_items ++
                          [{ path := path, position := pos, length := len }] }) } := by
  have h1 : ¬ (t ≥ (p.tracks.length : Int)) := by
    have := List.length_pos.mpr hne
    omega
  have h2 : ¬ (0 ≤ t) := by omega
  unfold add_midi_item pyIndexNorm
  simp [h1, h2, hbound, bind, Except.bind, pure, Except.pure, throw]

/-- Witness for C10: `track_index = -1` on a two-track project appends to the
second (last) track. -/
theorem negative_track_index_appends_witness :
    ([⟨pys "T1", 0, pys "g", []⟩, ⟨pys "T2", 1, pys "h", []⟩] : List RppTrack) ≠ [] ∧
      (-1 : Int) < 0 ∧ -(-1 : Int) ≤ (2 : Int) ∧
      add_midi_item { ReaperProject.init with
                        tracks := [⟨pys "T1", 0, pys "g", []⟩, ⟨pys "T2", 1, pys "h", []⟩] }
          (-1) (pys "x.mid") 0 (some 2) (fun _ => Except.error []) =
        Except.ok { ReaperProject.init with
                      tracks := [⟨pys "T1", 0, pys "g", []⟩,
                        ⟨pys "T2", 1, pys "h", [{ path := pys "x.mid", position := 0, length := 2 }]⟩] } := by
  refine ⟨by decide, by decide, by decide, ?_⟩
  have happ := negative_track_index_appends
    { ReaperProject.init with
        tracks := [⟨pys "T1", 0, pys "g", []⟩, ⟨pys "T2", 1, pys "h", []⟩] }
    (-1) (pys "x.mid") 0 2 (fun _ => Except.error [])
    (by decide) (by decide) (by decide)
  rw [happ]
  rfl

/-- C9 (counterexample): a malformed TEMPO directive does not fall back to
the default — `float("abc")` raises and the whole load fails. -/
theorem malformed_tempo_raises_cex :
    loadLines uidSupply [pys "TEMPO abc 4 4"] =
      Except.error (pys "ValueError: could not convert string to float") := by
  with_unfolding_all decide

/-- Helper: a fold over metadata-inert lines leaves the metadata state
unchanged and raises nothing. -/
theorem metaFold_inert (lines : List PyStr)
    (h : ∀ l ∈ lines, ∀ st, metaStep st l = Except.ok st) :
    ∀ st, lines.foldlM metaStep st = Except.ok st := by
  induction lines with
  | nil => intro st; rfl
  | cons l ls ih =>
    intro st
    rw [List.foldlM_cons, h l (List.mem_cons_self l ls) st]
    exact ih (fun x hx => h x (List.mem_cons_of_mem l hx)) st

/-- Helper: a line that starts with none of the three metadata directives —
or that carries a RENDER_FILE directive without a quoted group — leaves the
metadata state unchanged. -/
theorem metaStep_inert (l : PyStr)
    (h1 : pyStartsWith (pyStrip l) (pys "TEMPO ") = false)
    (h2 : pyStartsWith (pyStrip l) (pys "SAMPLERATE ") = false)
    (h3 : pyStartsWith (pyStrip l) (pys "RENDER_FILE ") = true →
      firstQuoted (pyStrip l) = none) :
    ∀ st, metaStep st l = Except.ok st := by
  intro st
  simp only [metaStep]
  rw [h1, h2]
  simp only [Bool.false_eq_true, if_false]
  by_cases hr : pyStartsWith (pyStrip l) (pys "RENDER_FILE ") = true
  · rw [hr, h3 hr]; simp
  · simp only [Bool.not_eq_true] at hr; rw [hr]; simp

/-- C9 (amended): parsing is fault-tolerant for absent directives and for a
RENDER_FILE directive without a quoted value — the load succeeds and tempo,
sample rate and render target keep their defaults 120, 44100, "render" — but
a present TEMPO or SAMPLERATE directive whose value fails numeric conversion
raises instead of falling back (see the counterexample). -/
theorem absent_directives_default (ids : Nat → PyStr) (lines : List PyStr)
    (h : ∀ l ∈ lines,
      pyStartsWith (pyStrip l) (pys "TEMPO ") = false ∧
      pyStartsWith (pyStrip l) (pys "SAMPLERATE ") = false ∧
      (pyStartsWith (pyStrip l) (pys "RENDER_FILE ") = true →
        firstQuoted (pyStrip l) = none)) :
    ∃ st, loadLines ids lines = Except.ok st ∧
      st.tempo = 120 ∧ st.sample_rate = 44100 ∧ st.render_file = pys "render" := by
  have hfold := metaFold_inert lines
    (fun l hl => metaStep_inert l (h l hl).1 (h l hl).2.1 (h l hl).2.2)
    (120, 44100, pys "render")
  refine ⟨{ tempo := 120, time_signature := (4, 4), sample_rate := 44100,
            render_file := pys "render",
            tracks := (lines.foldl (trackStep ids) ⟨[], false, none, 0, 0⟩).tracks },
    ?_, rfl, rfl, rfl⟩
  simp only [loadLines, hfold, bind, Except.bind, pure, Except.pure]

/-- Witness for C9's amended statement: a project text with an unrecognized
directive and an unquoted RENDER_FILE directive loads with all defaults. -/
theorem absent_directives_default_witness :
    (∀ l ∈ [pys "RENDER_FILE foo", pys "XYZ 1"],
      pyStartsWith (pyStrip l) (pys "TEMPO ") = false ∧
      pyStartsWith (pyStrip l) (pys "SAMPLERATE ") = false ∧
      (pyStartsWith (pyStrip l) (pys "RENDER_FILE ") = true →
        firstQuoted (pyStrip l) = none)) ∧
      ∃ st, loadLines uidSupply [pys "RENDER_FILE foo", pys "XYZ 1"] = Except.ok st ∧
        st.tempo = 120 ∧ st.sample_rate = 44100 ∧ st.render_file = pys "render" :=
  ⟨by decide, absent_directives_default uidSupply [pys "RENDER_FILE foo", pys "XYZ 1"]
    (by decide)⟩

/-- Helper: the track loop of serialization consumes no fresh identifiers and
produces identical text for any two supplies when no track owns an item. -/
theorem generateTracks_indep (ids1 ids2 : Nat → PyStr) (c : Nat) (tracks : List RppTrack)
    (h : ∀ t ∈ tracks, t.midi_items = []) :
    generateTracks ids1 c tracks = generateTracks ids2 c tracks := by
  induction tracks generalizing c with
  | nil => rfl
  | cons t rest ih =>
    have ht := h t (List.mem_cons_self t rest)
    simp only [generateTracks, generateTrack, ht, List.isEmpty_nil, if_true, generateItems]
    rw [ih c (fun x hx => h x (List.mem_cons_of_mem t hx))]

/-- C2 (amended): serialization is a function of the model and the fresh
identifier supply; when no track owns a placed item no identifier is drawn,
so the regenerated text is identical across invocations.  (With a placed
item, the freshly drawn FX/item identifiers differ between invocations —
see the counterexample.) -/
theorem serialize_deterministic_without_items (p : ReaperProject) (ids1 ids2 : Nat → PyStr)
    (h : ∀ t ∈ p.tracks, t.midi_items = []) :
    generateNewProject ids1 p = generateNewProject ids2 p := by
  unfold generateNewProject
  rw [generateTracks_indep ids1 ids2 0 p.tracks h]

/-- Witness for C2's amended statement: one itemless track, two different
supplies, identical output. -/
theorem serialize_deterministic_without_items_witness :
    (∀ t ∈ ({ tempo := 128, time_signature := (4, 4), sample_rate := 44100,
              render_file := pys "render",
              tracks := [⟨pys "Drums", 0, pys "g-0", []⟩] } : ReaperProject).tracks,
      t.midi_items = []) ∧
      generateNewProject (fun _ => pys "aaaa")
          { tempo := 128, time_signature := (4, 4), sample_rate := 44100,
            render_file := pys "render", tracks := [⟨pys "Drums", 0, pys "g-0", []⟩] } =
        generateNewProject (fun _ => pys "cccc")
          { tempo := 128, time_signature := (4, 4), sample_rate := 44100,
            render_file := pys "render", tracks := [⟨pys "Drums", 0, pys "g-0", []⟩] } :=
  ⟨by decide,
    serialize_deterministic_without_items
      { tempo := 128, time_signature := (4, 4), sample_rate := 44100,
        render_file := pys "render", tracks := [⟨pys "Drums", 0, pys "g-0", []⟩] }
      (fun _ => pys "aaaa") (fun _ => pys "cccc") (by decide)⟩

/-- C2 (counterexample): serialization is not a deterministic function of the
model alone — with a placed item, two serializations of the same unchanged
model differ in their freshly generated identifier lines. -/
theorem serialize_not_identical_cex :
    generateNewProject (fun _ => pys "aaaa")
        { tempo := 128, time_signature := (4, 4), sample_rate := 44100,
          render_file := pys "render",
          tracks := [⟨pys "Drums", 0, pys "g-0",
            [{ path := pys "drums.mid", position := 0, length := 4 }]⟩] } ≠
      generateNewProject (fun _ => pys "cccc")
        { tempo := 128, time_signature := (4, 4), sample_rate := 44100,
          render_file := pys "render",
          tracks := [⟨pys "Drums", 0, pys "g-0",
            [{ path := pys "drums.mid", position := 0, length := 4 }]⟩] } := by
  with_unfolding_all decide

/-- Helper: `dropWhile` is the identity on a list none of whose elements
satisfy the predicate. -/
theorem dropWhile_all_false {p : Char → Bool} {l : PyStr}
    (h : ∀ a ∈ l, p a = false) : l.dropWhile p = l := by
  induction l with
  | nil => rfl
  | cons c cs ih =>
    rw [List.dropWhile_cons, h c (List.mem_cons_self c cs)]
    simp [ih (fun a ha => h a (List.mem_cons_of_mem c ha))]

/-- Helper: stripping a string of non-whitespace characters changes
nothing. -/
theorem pyStrip_of_nonspace (l : PyStr) (h : ∀ c ∈ l, pyIsSpace c = false) :
    pyStrip l = l := by
  unfold pyStrip
  rw [dropWhile_all_false h, dropWhile_all_false (by simpa using h), List.reverse_reverse]

/-- Helper: stripping leading whitespace and nothing else: a line made of a
whitespace prefix, a non-space first character, arbitrary middle and a
non-space final character strips to everything after the whitespace. -/
theorem pyStrip_concat (sp : PyStr) (c : Char) (mid : PyStr) (d : Char)
    (hsp : ∀ a ∈ sp, pyIsSpace a = true) (hc : pyIsSpace c = false)
    (hd : pyIsSpace d = false) :
    pyStrip (sp ++ c :: (mid ++ [d])) = c :: (mid ++ [d]) := by
  unfold pyStrip
  rw [List.dropWhile_append]
  have h1 : List.dropWhile pyIsSpace sp = [] := by
    rw [List.dropWhile_eq_nil_iff]; exact fun a ha => hsp a ha
  rw [h1]
  simp only [List.isEmpty_nil, if_true, List.dropWhile_cons, hc, Bool.false_eq_true,
    if_false, List.reverse_cons, List.reverse_append, List.reverse_cons]
  simp only [List.reverse_nil, List.nil_append, List.singleton_append, List.dropWhile_cons,
    hd, Bool.false_eq_true, if_false]
  simp [List.reverse_append, hd]

/-- Helper: as `pyStrip_concat`, but with the line ending in a nonempty
all-non-space suffix instead of a single known character. -/
theorem pyStrip_concat_tail (sp : PyStr) (c : Char) (mid x : PyStr)
    (hsp : ∀ a ∈ sp, pyIsSpace a = true) (hc : pyIsSpace c = false)
    (hx : ∀ a ∈ x, pyIsSpace a = false) (hne : x ≠ []) :
    pyStrip (sp ++ c :: (mid ++ x)) = c :: (mid ++ x) := by
  unfold pyStrip
  rw [List.dropWhile_append]
  have h1 : List.dropWhile pyIsSpace sp = [] := by
    rw [List.dropWhile_eq_nil_iff]; exact fun a ha => hsp a ha
  rw [h1]
  simp only [List.isEmpty_nil, if_true, List.dropWhile_cons, hc, Bool.false_eq_true, if_false]
  simp only [List.reverse_cons, List.reverse_append]
  rw [List.append_assoc, List.dropWhile_append]
  have h2 : List.dropWhile pyIsSpace x.reverse = x.reverse :=
    dropWhile_all_false (by simpa using hx)
  rw [h2]
  have h3 : x.reverse.isEmpty = false := by
    cases hxr : x.reverse with
    | nil => exact absurd (List.reverse_eq_nil_iff.mp hxr) hne
    | cons a l => rfl
  rw [h3]
  simp [List.reverse_append]

/-- Helper: correctness of the decimal digit string — its value, nonemptiness
and that every character is a digit. -/
theorem natReprAux_spec :
    ∀ fuel n, n < fuel →
      digitsVal (natReprAux fuel n) = n ∧ natReprAux fuel n ≠ [] ∧
        ∀ c ∈ natReprAux fuel n, c.isDigit = true := by
  intro fuel
  induction fuel with
  | zero => omega
  | succ f ih =>
    intro n hn
    have hstep : natReprAux (f + 1) n =
        if n < 10 then [Char.ofNat ('0'.toNat + n)]
        else natReprAux f (n / 10) ++ [Char.ofNat ('0'.toNat + n % 10)] := rfl
    by_cases h10 : n < 10
    · have hsmall : natReprAux (f + 1) n = [Char.ofNat ('0'.toNat + n)] := by
        rw [hstep, if_pos h10]
      rw [hsmall]
      interval_cases n <;> refine ⟨by decide, by decide, ?_⟩ <;> decide
    · have hbig : natReprAux (f + 1) n =
          natReprAux f (n / 10) ++ [Char.ofNat ('0'.toNat + n % 10)] := by
        rw [hstep, if_neg h10]
      have hdiv : n / 10 < f := by
        have := Nat.div_lt_self (by omega : 0 < n) (by omega : 1 < 10)
        omega
      obtain ⟨hv, hne, hdig⟩ := ih (n / 10) hdiv
      have hmod : n % 10 < 10 := Nat.mod_lt _ (by omega)
      have hlastdig : (Char.ofNat ('0'.toNat + n % 10)).isDigit = true ∧
          pyDigitVal (Char.ofNat ('0'.toNat + n % 10)) = n % 10 := by
        set k := n % 10 with hk
        interval_cases k <;> exact ⟨by decide, by decide⟩
      refine ⟨?_, by simp [hbig], ?_⟩
      · rw [hbig]
        unfold digitsVal
        rw [List.foldl_append]
        have : digitsVal (natReprAux f (n / 10)) = n / 10 := hv
        unfold digitsVal at this
        rw [this]
        simp only [List.foldl_cons, List.foldl_nil, hlastdig.2]
        omega
      · rw [hbig]
        intro c hc
        rcases List.mem_append.mp hc with hc | hc
        · exact hdig c hc
        · rw [List.mem_singleton.mp hc]; exact hlastdig.1

/-- Helper: correctness of `natRepr`. -/
theorem natRepr_spec (n : Nat) :
    digitsVal (natRepr n) = n ∧ natRepr n ≠ [] ∧ ∀ c ∈ natRepr n, c.isDigit = true :=
  natReprAux_spec (n + 1) n (by omega)

/-- Helper: a digit character is not whitespace. -/
theorem digit_not_space (c : Char) (h : c.isDigit = true) : pyIsSpace c = false := by
  cases hc : pyIsSpace c
  · rfl
  · exfalso
    unfold pyIsSpace at hc
    simp only [Bool.or_eq_true, decide_eq_true_eq] at hc
    rcases hc with ((((rfl | rfl) | rfl) | rfl) | rfl) | rfl <;> exact absurd h (by decide)

/-- Helper: every character of a Python int's string form is a digit or a
leading minus sign; in particular none is whitespace. -/
theorem pyIntRepr_nonspace (i : Int) : ∀ c ∈ pyIntRepr i, pyIsSpace c = false := by
  intro c hc
  unfold pyIntRepr at hc
  split at hc
  · rcases List.mem_cons.mp hc with rfl | hc
    · decide
    · exact digit_not_space c ((natRepr_spec _).2.2 c hc)
  · exact digit_not_space c ((natRepr_spec _).2.2 c hc)

/-- Helper: the string form of an int is nonempty. -/
theorem pyIntRepr_ne_nil (i : Int) : pyIntRepr i ≠ [] := by
  unfold pyIntRepr
  split
  · simp
  · exact (natRepr_spec _).2.1

/-- Helper: parsing back the string form of an int recovers the int —
`int(str(i)) == i`. -/
theorem pyParseInt_pyIntRepr (i : Int) : pyParseInt (pyIntRepr i) = some i := by
  unfold pyParseInt
  rw [pyStrip_of_nonspace _ (pyIntRepr_nonspace i)]
  obtain ⟨hval, hne, hdig⟩ := natRepr_spec i.toNat
  obtain ⟨hvalneg, hneneg, hdigneg⟩ := natRepr_spec (-i).toNat
  unfold pyIntRepr
  by_cases hneg : i < 0
  · rw [if_pos hneg]
    unfold pyParseIntCore
    split
    next ds heq =>
      have hds : ds = natRepr (-i).toNat := by
        have := heq
        simp only [List.cons.injEq] at this
        exact this.2.symm
      subst hds
      rw [if_pos]
      · congr 1
        rw [hvalneg]
        omega
      · rw [Bool.and_eq_true]
        constructor
        · cases hx : natRepr (-i).toNat with
          | nil => exact absurd hx hneneg
          | cons a l => simp
        · rw [List.all_eq_true]; exact hdigneg
    next ds heq =>
      exfalso
      have : '-' = '+' := by
        have := heq
        simp only [List.cons.injEq] at this
        exact this.1
      exact absurd this (by decide)
    next ds h1 h2 =>
      exfalso
      exact h1 (natRepr (-i).toNat) rfl
  · rw [if_neg hneg]
    unfold pyParseIntCore
    split
    next ds heq =>
      exfalso
      have hm : '-' ∈ natRepr i.toNat := by rw [heq]; exact List.mem_cons_self _ _
      exact absurd (hdig '-' hm) (by decide)
    next ds heq =>
      exfalso
      have hm : '+' ∈ natRepr i.toNat := by rw [heq]; exact List.mem_cons_self _ _
      exact absurd (hdig '+' hm) (by decide)
    next ds h1 h2 =>
      rw [if_pos]
      · congr 1
        rw [hval]
        omega
      · rw [Bool.and_eq_true]
        constructor
        · cases hx : natRepr i.toNat with
          | nil => exact absurd hx hne
          | cons a l => simp
        · rw [List.all_eq_true]; exact hdig

/-- Helper: `pySplitAux` accumulates a non-space prefix into the current
word. -/
theorem pySplitAux_accum (x : PyStr) (hx : ∀ c ∈ x, pyIsSpace c = false) :
    ∀ s cur, pySplitAux (x ++ s) cur = pySplitAux s (x.reverse ++ cur) := by
  induction x with
  | nil => intro s cur; simp
  | cons c cs ih =>
    intro s cur
    have hc := hx c (List.mem_cons_self c cs)
    simp only [List.cons_append, pySplitAux, hc, Bool.false_eq_true, if_false]
    show pySplitAux (cs ++ s) (c :: cur) = pySplitAux s ((c :: cs).reverse ++ cur)
    rw [ih (fun a ha => hx a (List.mem_cons_of_mem c ha)) s (c :: cur)]
    simp [List.append_assoc]

/-- Helper: splitting a word followed by a space yields the word and then the
split of the remainder. -/
theorem pySplit_word_space (x rest : PyStr) (hx : ∀ c ∈ x, pyIsSpace c = false)
    (hne : x ≠ []) :
    pySplitAux (x ++ ' ' :: rest) [] = x :: pySplitAux rest [] := by
  rw [pySplitAux_accum x hx (' ' :: rest) []]
  have hrev : x.reverse ≠ [] := fun h => hne (List.reverse_eq_nil_iff.mp h)
  simp only [List.append_nil, pySplitAux, if_neg hrev, List.reverse_reverse]
  rfl

/-- Helper: splitting a trailing word. -/
theorem pySplit_word_end (x : PyStr) (hx : ∀ c ∈ x, pyIsSpace c = false)
    (hne : x ≠ []) :
    pySplitAux x [] = [x] := by
  have := pySplitAux_accum x hx [] []
  rw [List.append_nil] at this
  rw [this]
  have hrev : x.reverse ≠ [] := fun h => hne (List.reverse_eq_nil_iff.mp h)
  simp only [List.append_nil, pySplitAux, if_neg hrev, List.reverse_reverse]

/-- Helper: dropping non-quote characters from a string that ends in a quote
reaches a quote. -/
theorem dropWhile_to_quote (l : PyStr) :
    ∃ t, (l ++ ['"']).dropWhile neQuote = '"' :: t := by
  induction l with
  | nil => exact ⟨[], rfl⟩
  | cons c cs ih =>
    by_cases hc : c = '"'
    · subst hc
      refine ⟨cs ++ ['"'], ?_⟩
      rw [List.cons_append, List.dropWhile_cons,
        show neQuote '"' = false from rfl]
      simp
    · obtain ⟨t, ht⟩ := ih
      refine ⟨t, ?_⟩
      rw [List.cons_append, List.dropWhile_cons,
        show neQuote c = true from by simp [neQuote, hc]]
      simpa using ht

/-- Helper: searching a string of the form `pre ++ '"' ++ mid ++ '"'` where
the prefix carries no quote finds a quoted group. -/
theorem firstQuoted_found (pre mid : PyStr) (hpre : ∀ c ∈ pre, c ≠ '"') :
    ∃ g, firstQuoted (pre ++ '"' :: (mid ++ ['"'])) = some g := by
  induction pre with
  | nil =>
    obtain ⟨t, ht⟩ := dropWhile_to_quote mid
    refine ⟨(mid ++ ['"']).takeWhile neQuote, ?_⟩
    rw [List.nil_append]
    show (match (mid ++ ['"']).dropWhile neQuote with
      | '"' :: _ => some ((mid ++ ['"']).takeWhile neQuote)
      | _ => none) = some ((mid ++ ['"']).takeWhile neQuote)
    rw [ht]
    rfl
  | cons c cs ih =>
    have hc := hpre c (List.mem_cons_self c cs)
    obtain ⟨g, hg⟩ := ih (fun a ha => hpre a (List.mem_cons_of_mem c ha))
    refine ⟨g, ?_⟩
    rw [List.cons_append]
    unfold firstQuoted
    split
    next heq => cases heq
    next rest heq =>
      exfalso
      have : c = '"' := by
        have := heq
        simp only [List.cons.injEq] at this
        exact this.1
      exact hc this
    next c' rest hne heq =>
      have hrest : rest = cs ++ '"' :: (mid ++ ['"']) := by
        simp only [List.cons.injEq] at heq
        exact heq.2.symm
      rw [hrest]
      exact hg

/-- Helper: no character of a float's string form is whitespace. -/
theorem pyFloatRepr_nonspace (q : ℚ) : ∀ c ∈ pyFloatRepr q, pyIsSpace c = false := by
  intro c hc
  unfold pyFloatRepr at hc
  split at hc
  · rcases List.mem_append.mp hc with hc | hc
    · exact pyIntRepr_nonspace _ c hc
    · rcases hc with _ | ⟨_, hc⟩
      · decide
      · rcases hc with _ | ⟨_, hc⟩
        · decide
        · cases hc
  · rcases List.mem_append.mp hc with hc | hc
    · exact pyIntRepr_nonspace _ c hc
    · rcases List.mem_cons.mp hc with rfl | hc
      · decide
      · exact digit_not_space c ((natRepr_spec _).2.2 c hc)

/-- Helper: a float's string form is nonempty. -/
theorem pyFloatRepr_ne_nil (q : ℚ) : pyFloatRepr q ≠ [] := by
  unfold pyFloatRepr
  split <;> simp [pyIntRepr_ne_nil]

/-- Helper: a fold of the track loop over lines that do not open a track is
the identity from any state not inside a track. -/
theorem trackFold_skip (ids : Nat → PyStr) (lines : List PyStr)
    (h : ∀ l ∈ lines, pyStartsWith (pyStrip l) (pys "<TRACK") = false) :
    ∀ st : TrackScan, st.in_track = false →
      lines.foldl (trackStep ids) st = st := by
  induction lines with
  | nil => intro st _; rfl
  | cons l ls ih =>
    intro st hst
    rw [List.foldl_cons]
    have hstep : trackStep ids st l = st := by
      simp only [trackStep]
      rw [h l (List.mem_cons_self l ls), hst]
      simp
    rw [hstep]
    exact ih (fun x hx => h x (List.mem_cons_of_mem l hx)) st hst

/-- Helper: a fold of the track loop over lines that neither open a track,
nor carry a name directive, nor consist of the block closer, is the identity
from any state. -/
theorem trackFold_pass (ids : Nat → PyStr) (lines : List PyStr)
    (h : ∀ l ∈ lines, pyStartsWith (pyStrip l) (pys "<TRACK") = false ∧
      pyStartsWith (pyStrip l) (pys "NAME ") = false ∧
      (pyStrip l == pys ">") = false) :
    ∀ st : TrackScan, lines.foldl (trackStep ids) st = st := by
  induction lines with
  | nil => intro st; rfl
  | cons l ls ih =>
    intro st
    rw [List.foldl_cons]
    obtain ⟨h1, h2, h3⟩ := h l (List.mem_cons_self l ls)
    have hstep : trackStep ids st l = st := by
      simp only [trackStep]
      rw [h1, h2, h3]
      simp
    rw [hstep]
    exact ih (fun x hx => h x (List.mem_cons_of_mem l hx)) st

/-- Stripping the generated SAMPLERATE line. -/
theorem strip_sampleLine (x : PyStr) :
    pyStrip (pys "  SAMPLERATE " ++ x ++ pys " 0 0") =
      pys "SAMPLERATE " ++ x ++ pys " 0 0" := by
  rw [show pys "  SAMPLERATE " ++ x ++ pys " 0 0" =
      pys "  " ++ 'S' :: ((pys "AMPLERATE " ++ x ++ pys " 0 ") ++ ['0']) from by
    simp only [List.append_assoc]; rfl]
  rw [pyStrip_concat _ _ _ _ (by decide) (by decide) (by decide)]
  simp only [List.append_assoc]; rfl

/-- Stripping the generated RENDER_FILE line. -/
theorem strip_renderLine (x : PyStr) :
    pyStrip (pys "  RENDER_FILE \"" ++ x ++ pys "\"") =
      pys "RENDER_FILE \"" ++ x ++ pys "\"" := by
  rw [show pys "  RENDER_FILE \"" ++ x ++ pys "\"" =
      pys "  " ++ 'R' :: ((pys "ENDER_FILE \"" ++ x) ++ ['"']) from by
    simp only [List.append_assoc]; rfl]
  rw [pyStrip_concat _ _ _ _ (by decide) (by decide) (by decide)]
  simp only [List.append_assoc]; rfl

/-- Stripping the generated track-opening line. -/
theorem strip_trackLine (g : PyStr) :
    pyStrip (pys "  <TRACK " ++ braced g) = pys "<TRACK " ++ braced g := by
  rw [show pys "  <TRACK " ++ braced g =
      pys "  " ++ '<' :: ((pys "TRACK \x7b" ++ g) ++ ['\x7d']) from by
    simp only [braced, List.append_assoc]; rfl]
  rw [pyStrip_concat _ _ _ _ (by decide) (by decide) (by decide)]
  simp only [braced, List.append_assoc]; rfl

/-- Stripping the generated FXID line. -/
theorem strip_fxidLine (u : PyStr) :
    pyStrip (pys "      FXID " ++ braced u) = pys "FXID " ++ braced u := by
  rw [show pys "      FXID " ++ braced u =
      pys "      " ++ 'F' :: ((pys "XID \x7b" ++ u) ++ ['\x7d']) from by
    simp only [braced, List.append_assoc]; rfl]
  rw [pyStrip_concat _ _ _ _ (by decide) (by decide) (by decide)]
  simp only [braced, List.append_assoc]; rfl

/-- Stripping the generated IGUID line. -/
theorem strip_iguidLine (u : PyStr) :
    pyStrip (pys "      IGUID " ++ braced u) = pys "IGUID " ++ braced u := by
  rw [show pys "      IGUID " ++ braced u =
      pys "      " ++ 'I' :: ((pys "GUID \x7b" ++ u) ++ ['\x7d']) from by
    simp only [braced, List.append_assoc]; rfl]
  rw [pyStrip_concat _ _ _ _ (by decide) (by decide) (by decide)]
  simp only [braced, List.append_assoc]; rfl

/-- Stripping the generated item GUID line. -/
theorem strip_guidLine (u : PyStr) :
    pyStrip (pys "      GUID " ++ braced u) = pys "GUID " ++ braced u := by
  rw [show pys "      GUID " ++ braced u =
      pys "      " ++ 'G' :: ((pys "UID \x7b" ++ u) ++ ['\x7d']) from by
    simp only [braced, List.append_assoc]; rfl]
  rw [pyStrip_concat _ _ _ _ (by decide) (by decide) (by decide)]
  simp only [braced, List.append_assoc]; rfl

/-- Stripping the generated item NAME line. -/
theorem strip_nameItemLine (s : PyStr) :
    pyStrip (pys "      NAME \"" ++ s ++ pys "\"") =
      pys "NAME \"" ++ s ++ pys "\"" := by
  rw [show pys "      NAME \"" ++ s ++ pys "\"" =
      pys "      " ++ 'N' :: ((pys "AME \"" ++ s) ++ ['"']) from by
    simp only [List.append_assoc]; rfl]
  rw [pyStrip_concat _ _ _ _ (by decide) (by decide) (by decide)]
  simp only [List.append_assoc]; rfl

/-- Stripping the generated FILE line. -/
theorem strip_fileLine (p : PyStr) :
    pyStrip (pys "        FILE \"" ++ p ++ pys "\"") =
      pys "FILE \"" ++ p ++ pys "\"" := by
  rw [show pys "        FILE \"" ++ p ++ pys "\"" =
      pys "        " ++ 'F' :: ((pys "ILE \"" ++ p) ++ ['"']) from by
    simp only [List.append_assoc]; rfl]
  rw [pyStrip_concat _ _ _ _ (by decide) (by decide) (by decide)]
  simp only [List.append_assoc]; rfl

/-- Stripping the generated POSITION line. -/
theorem strip_posLine (r : PyStr) (hr : ∀ c ∈ r, pyIsSpace c = false) (hne : r ≠ []) :
    pyStrip (pys "      POSITION " ++ r) = pys "POSITION " ++ r := by
  rw [show pys "      POSITION " ++ r =
      pys "      " ++ 'P' :: (pys "OSITION " ++ r) from rfl]
  rw [pyStrip_concat_tail _ _ _ _ (by decide) (by decide) hr hne]
  rfl

/-- Stripping the generated LENGTH line. -/
theorem strip_lenLine (r : PyStr) (hr : ∀ c ∈ r, pyIsSpace c = false) (hne : r ≠ []) :
    pyStrip (pys "      LENGTH " ++ r) = pys "LENGTH " ++ r := by
  rw [show pys "      LENGTH " ++ r =
      pys "      " ++ 'L' :: (pys "ENGTH " ++ r) from rfl]
  rw [pyStrip_concat_tail _ _ _ _ (by decide) (by decide) hr hne]
  rfl

/-- The track-opening line carries no metadata directive. -/
theorem metaStep_trackLine (g : PyStr) :
    ∀ st, metaStep st (pys "  <TRACK " ++ braced g) = Except.ok st :=
  metaStep_inert _ (by rw [strip_trackLine]; rfl) (by rw [strip_trackLine]; rfl)
    (by rw [strip_trackLine]; intro h; exact absurd h (fun hh => Bool.false_ne_true hh))

/-- The FXID line carries no metadata directive. -/
theorem metaStep_fxidLine (u : PyStr) :
    ∀ st, metaStep st (pys "      FXID " ++ braced u) = Except.ok st :=
  metaStep_inert _ (by rw [strip_fxidLine]; rfl) (by rw [strip_fxidLine]; rfl)
    (by rw [strip_fxidLine]; intro h; exact absurd h (fun hh => Bool.false_ne_true hh))

/-- The IGUID line carries no metadata directive. -/
theorem metaStep_iguidLine (u : PyStr) :
    ∀ st, metaStep st (pys "      IGUID " ++ braced u) = Except.ok st :=
  metaStep_inert _ (by rw [strip_iguidLine]; rfl) (by rw [strip_iguidLine]; rfl)
    (by rw [strip_iguidLine]; intro h; exact absurd h (fun hh => Bool.false_ne_true hh))

/-- The item GUID line carries no metadata directive. -/
theorem metaStep_guidLine (u : PyStr) :
    ∀ st, metaStep st (pys "      GUID " ++ braced u) = Except.ok st :=
  metaStep_inert _ (by rw [strip_guidLine]; rfl) (by rw [strip_guidLine]; rfl)
    (by rw [strip_guidLine]; intro h; exact absurd h (fun hh => Bool.false_ne_true hh))

/-- The item NAME line carries no metadata directive. -/
theorem metaStep_nameItemLine (s : PyStr) :
    ∀ st, metaStep st (pys "      NAME \"" ++ s ++ pys "\"") = Except.ok st :=
  metaStep_inert _ (by rw [strip_nameItemLine]; rfl) (by rw [strip_nameItemLine]; rfl)
    (by rw [strip_nameItemLine]; intro h; exact absurd h (fun hh => Bool.false_ne_true hh))

/-- The FILE line carries no metadata directive. -/
theorem metaStep_fileLine (p : PyStr) :
    ∀ st, metaStep st (pys "        FILE \"" ++ p ++ pys "\"") = Except.ok st :=
  metaStep_inert _ (by rw [strip_fileLine]; rfl) (by rw [strip_fileLine]; rfl)
    (by rw [strip_fileLine]; intro h; exact absurd h (fun hh => Bool.false_ne_true hh))

/-- The POSITION line carries no metadata directive. -/
theorem metaStep_posLine (q : ℚ) :
    ∀ st, metaStep st (pys "      POSITION " ++ pyFloatRepr q) = Except.ok st :=
  metaStep_inert _
    (by rw [strip_posLine _ (pyFloatRepr_nonspace q) (pyFloatRepr_ne_nil q)]; rfl)
    (by rw [strip_posLine _ (pyFloatRepr_nonspace q) (pyFloatRepr_ne_nil q)]; rfl)
    (by rw [strip_posLine _ (pyFloatRepr_nonspace q) (pyFloatRepr_ne_nil q)]
        intro h; exact absurd h (fun hh => Bool.false_ne_true hh))

/-- The LENGTH line carries no metadata directive. -/
theorem metaStep_lenLine (q : ℚ) :
    ∀ st, metaStep st (pys "      LENGTH " ++ pyFloatRepr q) = Except.ok st :=
  metaStep_inert _
    (by rw [strip_lenLine _ (pyFloatRepr_nonspace q) (pyFloatRepr_ne_nil q)]; rfl)
    (by rw [strip_lenLine _ (pyFloatRepr_nonspace q) (pyFloatRepr_ne_nil q)]; rfl)
    (by rw [strip_lenLine _ (pyFloatRepr_nonspace q) (pyFloatRepr_ne_nil q)]
        intro h; exact absurd h (fun hh => Bool.false_ne_true hh))

/-- Helper: a string starts with any of its own prefixes. -/
theorem pyStartsWith_append (p s : PyStr) : pyStartsWith (p ++ s) p = true := by
  unfold pyStartsWith
  rw [List.isPrefixOf_iff_prefix]
  exact List.prefix_append p s

/-- Splitting the stripped SAMPLERATE line into its whitespace-separated
fields. -/
theorem pySplit_sampleLine (x : PyStr) (hx : ∀ c ∈ x, pyIsSpace c = false)
    (hne : x ≠ []) :
    pySplit (pys "SAMPLERATE " ++ x ++ pys " 0 0") =
      [pys "SAMPLERATE", x, pys "0", pys "0"] := by
  unfold pySplit
  rw [List.append_assoc]
  have hpeel : pySplitAux (pys "SAMPLERATE " ++ (x ++ pys " 0 0")) [] =
      pys "SAMPLERATE" :: pySplitAux (x ++ pys " 0 0") [] := rfl
  rw [hpeel]
  rw [show x ++ pys " 0 0" = x ++ ' ' :: pys "0 0" from rfl]
  rw [pySplit_word_space x (pys "0 0") hx hne]
  rfl

/-- The SAMPLERATE metadata step: parses the serialized sample rate back. -/
theorem metaStep_sampleLine (sr : Int) :
    ∀ st, metaStep st (pys "  SAMPLERATE " ++ pyIntRepr sr ++ pys " 0 0") =
      Except.ok (st.1, sr, st.2.2) := by
  intro st
  simp only [metaStep]
  rw [strip_sampleLine]
  rw [show pyStartsWith (pys "SAMPLERATE " ++ pyIntRepr sr ++ pys " 0 0")
      (pys "TEMPO ") = false from rfl]
  rw [show pys "SAMPLERATE " ++ pyIntRepr sr ++ pys " 0 0" =
      pys "SAMPLERATE " ++ (pyIntRepr sr ++ pys " 0 0") from List.append_assoc _ _ _,
    pyStartsWith_append (pys "SAMPLERATE ") (pyIntRepr sr ++ pys " 0 0"),
    show pys "SAMPLERATE " ++ (pyIntRepr sr ++ pys " 0 0") =
      pys "SAMPLERATE " ++ pyIntRepr sr ++ pys " 0 0" from (List.append_assoc _ _ _).symm]
  simp only [Bool.false_eq_true, if_false, if_true]
  rw [pySplit_sampleLine _ (pyIntRepr_nonspace sr) (pyIntRepr_ne_nil sr)]
  rw [if_pos (by norm_num)]
  rw [show ([pys "SAMPLERATE", pyIntRepr sr, pys "0", pys "0"].getD 1 []) =
    pyIntRepr sr from rfl]
  rw [pyParseInt_pyIntRepr sr]

/-- The TEMPO metadata step at tempo 128: parses "128.0" back to 128. -/
theorem metaStep_tempoLine :
    ∀ st, metaStep st (pys "  TEMPO " ++ pyFloatRepr 128 ++ pys " 4 4") =
      Except.ok (128, st.2.1, st.2.2) := by
  intro st
  have hrepr : pyFloatRepr (128 : ℚ) = pys "128.0" := by with_unfolding_all decide
  rw [hrepr]
  rw [show pys "  TEMPO " ++ pys "128.0" ++ pys " 4 4" = pys "  TEMPO 128.0 4 4" from rfl]
  simp only [metaStep]
  rw [show pyStrip (pys "  TEMPO 128.0 4 4") = pys "TEMPO 128.0 4 4" from rfl]
  rw [show pyStartsWith (pys "TEMPO 128.0 4 4") (pys "TEMPO ") = true from by decide]
  simp only [if_true]
  rw [show pySplit (pys "TEMPO 128.0 4 4") = [pys "TEMPO", pys "128.0", pys "4", pys "4"]
    from by decide]
  rw [if_pos (by norm_num)]
  rw [show ([pys "TEMPO", pys "128.0", pys "4", pys "4"].getD 1 []) = pys "128.0" from rfl]
  rw [show pyParseFloat (pys "128.0") = some 128 from by with_unfolding_all decide]


/-- The RENDER_FILE metadata step: always succeeds, extracting some quoted
group. -/
theorem metaStep_renderLine (rf : PyStr) :
    ∃ gq, ∀ st, metaStep st (pys "  RENDER_FILE \"" ++ rf ++ pys "\"") =
      Except.ok (st.1, st.2.1, gq) := by
  obtain ⟨g, hg⟩ := firstQuoted_found (pys "RENDER_FILE ") rf (by decide)
  refine ⟨g, fun st => ?_⟩
  simp only [metaStep]
  rw [strip_renderLine]
  rw [show pyStartsWith (pys "RENDER_FILE \"" ++ rf ++ pys "\"") (pys "TEMPO ") = false
    from rfl]
  rw [show pyStartsWith (pys "RENDER_FILE \"" ++ rf ++ pys "\"") (pys "SAMPLERATE ") = false
    from rfl]
  rw [show pys "RENDER_FILE \"" ++ rf ++ pys "\"" =
      pys "RENDER_FILE " ++ ('\x22' :: (rf ++ ['\x22'])) from by
    simp only [List.append_assoc]; rfl]
  rw [pyStartsWith_append (pys "RENDER_FILE ") ('\x22' :: (rf ++ ['\x22']))]
  simp only [Bool.false_eq_true, if_false, if_true]
  rw [hg]

/-- The track-opening step: entering a track creates a fresh current track
with the default name; the guid and counter depend on whether the braced
group is found. -/
theorem trackStep_trackLine (ids : Nat → PyStr) (g : PyStr) (st : TrackScan) :
    ∃ gc : PyStr × Nat,
      trackStep ids st (pys "  <TRACK " ++ braced g) =
        { st with
            in_track := true
            current := some { name := pys "Track " ++ natRepr (st.track_idx + 1),
                              index := (st.track_idx : Int), guid := gc.1, midi_items := [] }
            track_idx := st.track_idx + 1
            ctr := gc.2 } := by
  simp only [trackStep]
  rw [strip_trackLine]
  rw [show pys "<TRACK " ++ braced g = pys "<TRACK" ++ (' ' :: braced g) from rfl,
    pyStartsWith_append (pys "<TRACK") (' ' :: braced g)]
  simp only [if_true]
  cases hb : firstBraced (pys "<TRACK" ++ (' ' :: braced g)) with
  | some gg => exact ⟨(gg, st.ctr), rfl⟩
  | none => exact ⟨(ids st.ctr, st.ctr + 1), rfl⟩

/-- The track-opening step from the initial scan state. -/
theorem trackStep_trackLine0 (ids : Nat → PyStr) (g : PyStr) :
    ∃ gc : PyStr × Nat,
      trackStep ids (⟨[], false, none, 0, 0⟩ : TrackScan) (pys "  <TRACK " ++ braced g) =
        ⟨[], true, some ⟨pys "Track 1", 0, gc.1, []⟩, 1, gc.2⟩ := by
  obtain ⟨gc, h⟩ := trackStep_trackLine ids g ⟨[], false, none, 0, 0⟩
  exact ⟨gc, h.trans (by rfl)⟩

/-- Chaining a metadata fold over an initial segment. -/
theorem metaFold_chunk (lines l2 : List PyStr) (s s' : ℚ × Int × PyStr)
    (h : lines.foldlM metaStep s = Except.ok s') :
    (lines ++ l2).foldlM metaStep s = l2.foldlM metaStep s' := by
  rw [List.foldlM_append, h]
  rfl

/-- Chaining a metadata fold over one line. -/
theorem metaFold_step (l : PyStr) (rest : List PyStr) (s s' : ℚ × Int × PyStr)
    (h : metaStep s l = Except.ok s') :
    (l :: rest).foldlM metaStep s = rest.foldlM metaStep s' := by
  rw [List.foldlM_cons, h]
  rfl

/-- Chaining a track-scan fold over an initial segment. -/
theorem trackFold_chunk (ids : Nat → PyStr) (lines l2 : List PyStr) (s s' : TrackScan)
    (h : lines.foldl (trackStep ids) s = s') :
    (lines ++ l2).foldl (trackStep ids) s = l2.foldl (trackStep ids) s' := by
  rw [List.foldl_append, h]

/-- Chaining a track-scan fold over one line. -/
theorem trackFold_step (ids : Nat → PyStr) (l : PyStr) (rest : List PyStr) (s s' : TrackScan)
    (h : trackStep ids s l = s') :
    (l :: rest).foldl (trackStep ids) s = rest.foldl (trackStep ids) s' := by
  rw [List.foldl_cons, h]

/-- Stripping the generated TRACKID line. -/
theorem strip_trackidLine (u : PyStr) :
    pyStrip (pys "    TRACKID " ++ braced u) = pys "TRACKID " ++ braced u := by
  rw [show pys "    TRACKID " ++ braced u =
      pys "    " ++ 'T' :: ((pys "RACKID \x7b" ++ u) ++ ['\x7d']) from by
    simp only [braced, List.append_assoc]; rfl]
  rw [pyStrip_concat _ _ _ _ (by decide) (by decide) (by decide)]
  simp only [braced, List.append_assoc]; rfl

/-- The TRACKID line carries no metadata directive. -/
theorem metaStep_trackidLine (u : PyStr) :
    ∀ st, metaStep st (pys "    TRACKID " ++ braced u) = Except.ok st :=
  metaStep_inert _ (by rw [strip_trackidLine]; rfl) (by rw [strip_trackidLine]; rfl)
    (by rw [strip_trackidLine]; intro h; exact absurd h (fun hh => Bool.false_ne_true hh))


/-- C1 (amended): serializing a project model with tempo 128, exactly one
track named "Drums" and one placed item, then re-parsing the text, yields a
model with tempo 128.0 and exactly one track named "Drums" — but the placed
item is not recovered: the parser models no items (and the shallow block
matcher in fact closes the track at the first nested block closer), so the
reloaded track owns zero placed items. -/
theorem round_trip_drops_item (sr : Int) (rf g path : PyStr) (idx : Int) (pos len : ℚ)
    (ids ids2 : Nat → PyStr)
    (_hrf : '\n' ∉ rf) (_hg : '\n' ∉ g) (_hp : '\n' ∉ path) :
    ∃ st, loadLines ids2 (generateNewProject ids
        { tempo := 128, time_signature := (4, 4), sample_rate := sr, render_file := rf,
          tracks := [{ name := pys "Drums", index := idx, guid := g,
                       midi_items := [{ path := path, position := pos, length := len }] }] }) = Except.ok st ∧
      st.tempo = 128 ∧ st.tracks.map RppTrack.name = [pys "Drums"] ∧
      st.tracks.map RppTrack.midi_items = [[]] := by
  obtain ⟨gq, hgq⟩ := metaStep_renderLine rf
  obtain ⟨gc, hgc⟩ := trackStep_trackLine0 ids2 g
  have hH1 : ∀ l ∈ ([pys "<REAPER_PROJECT 0.1 \"7.0\" 1704067200",
      pys "  RIPPLE 0",
      pys "  GROUPOVERRIDE 0 0 0",
      pys "  AUTOXFADE 1"] : List PyStr), ∀ st, metaStep st l = Except.ok st := by
    intro l hl st
    fin_cases hl <;> rfl
  have hH2 : ∀ l ∈ ([pys "  PLAYRATE 1 0 0.25 4",
      pys "  MASTERTRACKHEIGHT 0 0",
      pys "  MASTERTRACKVIEW 0 0.6667 0.5 0.5 -1 -1 -1 0 0 0 -1 -1 0",
      pys "  MASTERHWOUT 0 0 1 0 0 0 0 -1",
      pys "  MASTER_NCH 2 2",
      pys "  MASTER_VOLUME 1 0 -1 -1 1",
      pys "  MASTER_FX 1",
      pys "  MASTER_SEL 0"] : List PyStr), ∀ st, metaStep st l = Except.ok st := by
    intro l hl st
    fin_cases hl <;> rfl
  have hT : ∀ l ∈ ([pys "  RENDER_PATTERN \"\"",
      pys "  RENDER_FMT 0 2 0",
      pys "  RENDER_1X 0",
      pys "  RENDER_RANGE 1 0 0 18 1000",
      pys "  RENDER_RESAMPLE 3 0 1",
      pys "  RENDER_ADDTOPROJ 0",
      pys "  RENDER_STEMS 0",
      pys "  RENDER_DITHER 0",
      pys "  <TRACK " ++ braced g,
      pys "    NAME \"Drums\"",
      pys "    PEAKCOL 16576",
      pys "    BEAT -1",
      pys "    AUTOMODE 0",
      pys "    VOLPAN 1 0 -1 -1 1",
      pys "    REC 0 0 1 0 0 0 0 0",
      pys "    VU 2",
      pys "    NCHAN 2",
      pys "    FX 1",
      pys "    TRACKID " ++ braced g,
      pys "    PERF 0",
      pys "    MIDIOUT -1",
      pys "    MAINSEND 1 0",
      pys "    <FXCHAIN",
      pys "      SHOW 0",
      pys "      LASTSEL 0",
      pys "      DOCKED 0",
      pys "      BYPASS 0 0 0",
      pys "      <VST \"VSTi: ReaSynth (Cockos)\" reasynth.vst.dylib 0 \"\" 1919251321<5653546872736E7265617379>",
      pys "        eXNlcu5e7f4CAAAAAQAAAAAAAAACAAAAAAAAAAIAAAABAAAAAAAAAAIAAAAAAAAAPAAAAAAAAAAAABA",
      pys "        AAAAAAAAAAAAQAAAAAAAAAAAAAAAAAAAAAAAAAAAAAAAAAAAAAAAAAAAAAAAAAAAAAAAAAAAAAAAAAAA",
      pys "        AAAAAAAAAAAAAAAAAAAAAAAAAAAAAAAAAAAAAAAAAAAAAAAAAAAA",
      pys "        AAAQAAAA",
      pys "      >",
      pys "      FLOATPOS 0 0 0 0",
      pys "      FXID " ++ braced (ids 0),
      pys "      WAK 0 0",
      pys "    >",
      pys "    <ITEM",
      pys "      POSITION " ++ pyFloatRepr pos,
      pys "      SNAPOFFS 0",
      pys "      LENGTH " ++ pyFloatRepr len,
      pys "      LOOP 1",
      pys "      ALLTAKES 0",
      pys "      FADEIN 1 0.01 0 1 0 0 0",
      pys "      FADEOUT 1 0.01 0 1 0 0 0",
      pys "      MUTE 0 0",
      pys "      SEL 0",
      pys "      IGUID " ++ braced (ids 1),
      pys "      IID 1",
      pys "      NAME \"" ++ pyStem path ++ pys "\"",
      pys "      VOLPAN 1 0 1 -1",
      pys "      PLAYRATE 1 1 0 -1 0 0.0025",
      pys "      CHANMODE 0",
      pys "      GUID " ++ braced (ids 2),
      pys "      <SOURCE MIDI",
      pys "        HASDATA 1 960 QN",
      pys "        FILE \"" ++ path ++ pys "\"",
      pys "      >",
      pys "    >",
      pys "  >",
      pys ">"] : List PyStr), ∀ st, metaStep st l = Except.ok st := by
    intro l hl st
    fin_cases hl <;>
      first
        | rfl
        | exact metaStep_trackLine g st
        | exact metaStep_fxidLine (ids 0) st
        | exact metaStep_posLine pos st
        | exact metaStep_lenLine len st
        | exact metaStep_iguidLine (ids 1) st
        | exact metaStep_nameItemLine (pyStem path) st
        | exact metaStep_guidLine (ids 2) st
        | exact metaStep_fileLine path st
        | exact metaStep_trackidLine g st
  have hmeta : (generateNewProject ids
      { tempo := 128, time_signature := (4, 4), sample_rate := sr, render_file := rf,
          tracks := [{ name := pys "Drums", index := idx, guid := g,
                       midi_items := [{ path := path, position := pos, length := len }] }] }).foldlM metaStep ((120 : ℚ), (44100 : Int), pys "render") =
      Except.ok ((128 : ℚ), sr, gq) := by
    rw [show generateNewProject ids
        { tempo := 128, time_signature := (4, 4), sample_rate := sr, render_file := rf,
          tracks := [{ name := pys "Drums", index := idx, guid := g,
                       midi_items := [{ path := path, position := pos, length := len }] }] } =
      [pys "<REAPER_PROJECT 0.1 \"7.0\" 1704067200",
      pys "  RIPPLE 0",
      pys "  GROUPOVERRIDE 0 0 0",
      pys "  AUTOXFADE 1"] ++ (pys "  SAMPLERATE " ++ pyIntRepr sr ++ pys " 0 0") :: (pys "  TEMPO " ++ pyFloatRepr 128 ++ pys " 4 4") ::
      ([pys "  PLAYRATE 1 0 0.25 4",
      pys "  MASTERTRACKHEIGHT 0 0",
      pys "  MASTERTRACKVIEW 0 0.6667 0.5 0.5 -1 -1 -1 0 0 0 -1 -1 0",
      pys "  MASTERHWOUT 0 0 1 0 0 0 0 -1",
      pys "  MASTER_NCH 2 2",
      pys "  MASTER_VOLUME 1 0 -1 -1 1",
      pys "  MASTER_FX 1",
      pys "  MASTER_SEL 0"] ++ (pys "  RENDER_FILE \"" ++ rf ++ pys "\"") ::
      [pys "  RENDER_PATTERN \"\"",
      pys "  RENDER_FMT 0 2 0",
      pys "  RENDER_1X 0",
      pys "  RENDER_RANGE 1 0 0 18 1000",
      pys "  RENDER_RESAMPLE 3 0 1",
      pys "  RENDER_ADDTOPROJ 0",
      pys "  RENDER_STEMS 0",
      pys "  RENDER_DITHER 0",
      pys "  <TRACK " ++ braced g,
      pys "    NAME \"Drums\"",
      pys "    PEAKCOL 16576",
      pys "    BEAT -1",
      pys "    AUTOMODE 0",
      pys "    VOLPAN 1 0 -1 -1 1",
      pys "    REC 0 0 1 0 0 0 0 0",
      pys "    VU 2",
      pys "    NCHAN 2",
      pys "    FX 1",
      pys "    TRACKID " ++ braced g,
      pys "    PERF 0",
      pys "    MIDIOUT -1",
      pys "    MAINSEND 1 0",
      pys "    <FXCHAIN",
      pys "      SHOW 0",
      pys "      LASTSEL 0",
      pys "      DOCKED 0",
      pys "      BYPASS 0 0 0",
      pys "      <VST \"VSTi: ReaSynth (Cockos)\" reasynth.vst.dylib 0 \"\" 1919251321<5653546872736E7265617379>",
      pys "        eXNlcu5e7f4CAAAAAQAAAAAAAAACAAAAAAAAAAIAAAABAAAAAAAAAAIAAAAAAAAAPAAAAAAAAAAAABA",
      pys "        AAAAAAAAAAAAQAAAAAAAAAAAAAAAAAAAAAAAAAAAAAAAAAAAAAAAAAAAAAAAAAAAAAAAAAAAAAAAAAAA",
      pys "        AAAAAAAAAAAAAAAAAAAAAAAAAAAAAAAAAAAAAAAAAAAAAAAAAAAA",
      pys "        AAAQAAAA",
      pys "      >",
      pys "      FLOATPOS 0 0 0 0",
      pys "      FXID " ++ braced (ids 0),
      pys "      WAK 0 0",
      pys "    >",
      pys "    <ITEM",
      pys "      POSITION " ++ pyFloatRepr pos,
      pys "      SNAPOFFS 0",
      pys "      LENGTH " ++ pyFloatRepr len,
      pys "      LOOP 1",
      pys "      ALLTAKES 0",
      pys "      FADEIN 1 0.01 0 1 0 0 0",
      pys "      FADEOUT 1 0.01 0 1 0 0 0",
      pys "      MUTE 0 0",
      pys "      SEL 0",
      pys "      IGUID " ++ braced (ids 1),
      pys "      IID 1",
      pys "      NAME \"" ++ pyStem path ++ pys "\"",
      pys "      VOLPAN 1 0 1 -1",
      pys "      PLAYRATE 1 1 0 -1 0 0.0025",
      pys "      CHANMODE 0",
      pys "      GUID " ++ braced (ids 2),
      pys "      <SOURCE MIDI",
      pys "        HASDATA 1 960 QN",
      pys "        FILE \"" ++ path ++ pys "\"",
      pys "      >",
      pys "    >",
      pys "  >",
      pys ">"]) from rfl]
    rw [metaFold_chunk _ _ _ _ (metaFold_inert _ hH1 _)]
    rw [metaFold_step _ _ _ _ (metaStep_sampleLine sr _)]
    rw [metaFold_step _ _ _ _ (metaStep_tempoLine _)]
    rw [metaFold_chunk _ _ _ _ (metaFold_inert _ hH2 _)]
    rw [metaFold_step _ _ _ _ (hgq _)]
    rw [metaFold_inert _ hT _]
  have hK1 : ∀ l ∈ ([pys "<REAPER_PROJECT 0.1 \"7.0\" 1704067200",
      pys "  RIPPLE 0",
      pys "  GROUPOVERRIDE 0 0 0",
      pys "  AUTOXFADE 1",
      pys "  SAMPLERATE " ++ pyIntRepr sr ++ pys " 0 0",
      pys "  TEMPO " ++ pyFloatRepr 128 ++ pys " 4 4",
      pys "  PLAYRATE 1 0 0.25 4",
      pys "  MASTERTRACKHEIGHT 0 0",
      pys "  MASTERTRACKVIEW 0 0.6667 0.5 0.5 -1 -1 -1 0 0 0 -1 -1 0",
      pys "  MASTERHWOUT 0 0 1 0 0 0 0 -1",
      pys "  MASTER_NCH 2 2",
      pys "  MASTER_VOLUME 1 0 -1 -1 1",
      pys "  MASTER_FX 1",
      pys "  MASTER_SEL 0",
      pys "  RENDER_FILE \"" ++ rf ++ pys "\"",
      pys "  RENDER_PATTERN \"\"",
      pys "  RENDER_FMT 0 2 0",
      pys "  RENDER_1X 0",
      pys "  RENDER_RANGE 1 0 0 18 1000",
      pys "  RENDER_RESAMPLE 3 0 1",
      pys "  RENDER_ADDTOPROJ 0",
      pys "  RENDER_STEMS 0",
      pys "  RENDER_DITHER 0"] : List PyStr), pyStartsWith (pyStrip l) (pys "<TRACK") = false := by
    intro l hl
    fin_cases hl <;>
      first
        | rfl
        | (rw [strip_sampleLine]; rfl)
        | (rw [strip_renderLine]; rfl)
  have hK2 : ∀ l ∈ ([pys "    PEAKCOL 16576",
      pys "    BEAT -1",
      pys "    AUTOMODE 0",
      pys "    VOLPAN 1 0 -1 -1 1",
      pys "    REC 0 0 1 0 0 0 0 0",
      pys "    VU 2",
      pys "    NCHAN 2",
      pys "    FX 1",
      pys "    TRACKID " ++ braced g,
      pys "    PERF 0",
      pys "    MIDIOUT -1",
      pys "    MAINSEND 1 0",
      pys "    <FXCHAIN",
      pys "      SHOW 0",
      pys "      LASTSEL 0",
      pys "      DOCKED 0",
      pys "      BYPASS 0 0 0",
      pys "      <VST \"VSTi: ReaSynth (Cockos)\" reasynth.vst.dylib 0 \"\" 1919251321<5653546872736E7265617379>",
      pys "        eXNlcu5e7f4CAAAAAQAAAAAAAAACAAAAAAAAAAIAAAABAAAAAAAAAAIAAAAAAAAAPAAAAAAAAAAAABA",
      pys "        AAAAAAAAAAAAQAAAAAAAAAAAAAAAAAAAAAAAAAAAAAAAAAAAAAAAAAAAAAAAAAAAAAAAAAAAAAAAAAAA",
      pys "        AAAAAAAAAAAAAAAAAAAAAAAAAAAAAAAAAAAAAAAAAAAAAAAAAAAA",
      pys "        AAAQAAAA"] : List PyStr), pyStartsWith (pyStrip l) (pys "<TRACK") = false ∧
      pyStartsWith (pyStrip l) (pys "NAME ") = false ∧ (pyStrip l == pys ">") = false := by
    intro l hl
    fin_cases hl <;>
      first
        | exact ⟨rfl, rfl, rfl⟩
        | (rw [strip_trackidLine]; exact ⟨rfl, rfl, rfl⟩)
  have hK3 : ∀ l ∈ ([pys "      FLOATPOS 0 0 0 0",
      pys "      FXID " ++ braced (ids 0),
      pys "      WAK 0 0",
      pys "    >",
      pys "    <ITEM",
      pys "      POSITION " ++ pyFloatRepr pos,
      pys "      SNAPOFFS 0",
      pys "      LENGTH " ++ pyFloatRepr len,
      pys "      LOOP 1",
      pys "      ALLTAKES 0",
      pys "      FADEIN 1 0.01 0 1 0 0 0",
      pys "      FADEOUT 1 0.01 0 1 0 0 0",
      pys "      MUTE 0 0",
      pys "      SEL 0",
      pys "      IGUID " ++ braced (ids 1),
      pys "      IID 1",
      pys "      NAME \"" ++ pyStem path ++ pys "\"",
      pys "      VOLPAN 1 0 1 -1",
      pys "      PLAYRATE 1 1 0 -1 0 0.0025",
      pys "      CHANMODE 0",
      pys "      GUID " ++ braced (ids 2),
      pys "      <SOURCE MIDI",
      pys "        HASDATA 1 960 QN",
      pys "        FILE \"" ++ path ++ pys "\"",
      pys "      >",
      pys "    >",
      pys "  >",
      pys ">"] : List PyStr), pyStartsWith (pyStrip l) (pys "<TRACK") = false := by
    intro l hl
    fin_cases hl <;>
      first
        | rfl
        | (rw [strip_fxidLine]; rfl)
        | (rw [strip_posLine _ (pyFloatRepr_nonspace pos) (pyFloatRepr_ne_nil pos)]; rfl)
        | (rw [strip_lenLine _ (pyFloatRepr_nonspace len) (pyFloatRepr_ne_nil len)]; rfl)
        | (rw [strip_iguidLine]; rfl)
        | (rw [strip_nameItemLine]; rfl)
        | (rw [strip_guidLine]; rfl)
        | (rw [strip_fileLine]; rfl)
  have htrack : (generateNewProject ids
      { tempo := 128, time_signature := (4, 4), sample_rate := sr, render_file := rf,
          tracks := [{ name := pys "Drums", index := idx, guid := g,
                       midi_items := [{ path := path, position := pos, length := len }] }] }).foldl (trackStep ids2) (⟨[], false, none, 0, 0⟩ : TrackScan) =
      ⟨[⟨pys "Drums", 0, gc.1, []⟩], false, none, 1, gc.2⟩ := by
    rw [show generateNewProject ids
        { tempo := 128, time_signature := (4, 4), sample_rate := sr, render_file := rf,
          tracks := [{ name := pys "Drums", index := idx, guid := g,
                       midi_items := [{ path := path, position := pos, length := len }] }] } =
      [pys "<REAPER_PROJECT 0.1 \"7.0\" 1704067200",
      pys "  RIPPLE 0",
      pys "  GROUPOVERRIDE 0 0 0",
      pys "  AUTOXFADE 1",
      pys "  SAMPLERATE " ++ pyIntRepr sr ++ pys " 0 0",
      pys "  TEMPO " ++ pyFloatRepr 128 ++ pys " 4 4",
      pys "  PLAYRATE 1 0 0.25 4",
      pys "  MASTERTRACKHEIGHT 0 0",
      pys "  MASTERTRACKVIEW 0 0.6667 0.5 0.5 -1 -1 -1 0 0 0 -1 -1 0",
      pys "  MASTERHWOUT 0 0 1 0 0 0 0 -1",
      pys "  MASTER_NCH 2 2",
      pys "  MASTER_VOLUME 1 0 -1 -1 1",
      pys "  MASTER_FX 1",
      pys "  MASTER_SEL 0",
      pys "  RENDER_FILE \"" ++ rf ++ pys "\"",
      pys "  RENDER_PATTERN \"\"",
      pys "  RENDER_FMT 0 2 0",
      pys "  RENDER_1X 0",
      pys "  RENDER_RANGE 1 0 0 18 1000",
      pys "  RENDER_RESAMPLE 3 0 1",
      pys "  RENDER_ADDTOPROJ 0",
      pys "  RENDER_STEMS 0",
      pys "  RENDER_DITHER 0"] ++ (pys "  <TRACK " ++ braced g) :: pys "    NAME \"Drums\"" ::
      ([pys "    PEAKCOL 16576",
      pys "    BEAT -1",
      pys "    AUTOMODE 0",
      pys "    VOLPAN 1 0 -1 -1 1",
      pys "    REC 0 0 1 0 0 0 0 0",
      pys "    VU 2",
      pys "    NCHAN 2",
      pys "    FX 1",
      pys "    TRACKID " ++ braced g,
      pys "    PERF 0",
      pys "    MIDIOUT -1",
      pys "    MAINSEND 1 0",
      pys "    <FXCHAIN",
      pys "      SHOW 0",
      pys "      LASTSEL 0",
      pys "      DOCKED 0",
      pys "      BYPASS 0 0 0",
      pys "      <VST \"VSTi: ReaSynth (Cockos)\" reasynth.vst.dylib 0 \"\" 1919251321<5653546872736E7265617379>",
      pys "        eXNlcu5e7f4CAAAAAQAAAAAAAAACAAAAAAAAAAIAAAABAAAAAAAAAAIAAAAAAAAAPAAAAAAAAAAAABA",
      pys "        AAAAAAAAAAAAQAAAAAAAAAAAAAAAAAAAAAAAAAAAAAAAAAAAAAAAAAAAAAAAAAAAAAAAAAAAAAAAAAAA",
      pys "        AAAAAAAAAAAAAAAAAAAAAAAAAAAAAAAAAAAAAAAAAAAAAAAAAAAA",
      pys "        AAAQAAAA"] ++ pys "      >" ::
      [pys "      FLOATPOS 0 0 0 0",
      pys "      FXID " ++ braced (ids 0),
      pys "      WAK 0 0",
      pys "    >",
      pys "    <ITEM",
      pys "      POSITION " ++ pyFloatRepr pos,
      pys "      SNAPOFFS 0",
      pys "      LENGTH " ++ pyFloatRepr len,
      pys "      LOOP 1",
      pys "      ALLTAKES 0",
      pys "      FADEIN 1 0.01 0 1 0 0 0",
      pys "      FADEOUT 1 0.01 0 1 0 0 0",
      pys "      MUTE 0 0",
      pys "      SEL 0",
      pys "      IGUID " ++ braced (ids 1),
      pys "      IID 1",
      pys "      NAME \"" ++ pyStem path ++ pys "\"",
      pys "      VOLPAN 1 0 1 -1",
      pys "      PLAYRATE 1 1 0 -1 0 0.0025",
      pys "      CHANMODE 0",
      pys "      GUID " ++ braced (ids 2),
      pys "      <SOURCE MIDI",
      pys "        HASDATA 1 960 QN",
      pys "        FILE \"" ++ path ++ pys "\"",
      pys "      >",
      pys "    >",
      pys "  >",
      pys ">"]) from rfl]
    rw [trackFold_chunk _ _ _ _ _ (trackFold_skip ids2 _ hK1 _ rfl)]
    rw [trackFold_step _ _ _ _ _ hgc]
    rw [trackFold_step _ _ _ _
      (⟨[], true, some ⟨pys "Drums", 0, gc.1, []⟩, 1, gc.2⟩ : TrackScan) (by rfl)]
    rw [trackFold_chunk _ _ _ _ _ (trackFold_pass ids2 _ hK2 _)]
    rw [trackFold_step _ _ _ _
      (⟨[⟨pys "Drums", 0, gc.1, []⟩], false, none, 1, gc.2⟩ : TrackScan) (by rfl)]
    rw [trackFold_skip ids2 _ hK3 _ rfl]
  refine ⟨⟨128, (4, 4), sr, gq, [⟨pys "Drums", 0, gc.1, []⟩]⟩, ?_, rfl, rfl, rfl⟩
  simp only [loadLines, hmeta, htrack, bind, Except.bind, pure, Except.pure]

/-- Witness for C1's amended statement at a concrete model. -/
theorem round_trip_drops_item_witness :
    ('\n' ∉ pys "render") ∧ ('\n' ∉ pys "g-0") ∧ ('\n' ∉ pys "drums.mid") ∧
      ∃ st, loadLines uidSupply (generateNewProject uidSupply
          { tempo := 128, time_signature := (4, 4), sample_rate := 44100,
            render_file := pys "render",
            tracks := [{ name := pys "Drums", index := 0, guid := pys "g-0",
                         midi_items := [{ path := pys "drums.mid", position := 0,
                                          length := 4 }] }] }) = Except.ok st ∧
        st.tempo = 128 ∧ st.tracks.map RppTrack.name = [pys "Drums"] ∧
        st.tracks.map RppTrack.midi_items = [[]] :=
  ⟨by decide, by decide, by decide,
    round_trip_drops_item 44100 (pys "render") (pys "g-0") (pys "drums.mid") 0 0 4
      uidSupply uidSupply (by decide) (by decide) (by decide)⟩

/-- C1 (counterexample): the concrete round trip — tempo 128, one track
"Drums", one placed item — does not restore the placed item: re-parsing
yields the track with zero items, refuting the claim's "one placed item". -/
theorem round_trip_drops_item_cex :
    ¬ ((loadLines uidSupply (generateNewProject uidSupply
        { tempo := 128, time_signature := (4, 4), sample_rate := 44100,
          render_file := pys "render",
          tracks := [{ name := pys "Drums", index := 0, guid := pys "g-0",
                       midi_items := [{ path := pys "drums.mid", position := 0,
                                        length := 4 }] }] })).toOption.map
        (fun st => (st.tempo, st.tracks.map (fun t => (t.name, t.midi_items.length)))) =
      some (128, [(pys "Drums", 1)])) := by
  with_unfolding_all decide

/-- Witness for C3: two notes of the same pitch, the first ending exactly
where the second starts (tick 480); the off event sits at position 1, the on
event at position 2 — off strictly before on. -/
theorem off_before_on_at_equal_tick_witness :
    (sortedEvents [⟨60, 0, 1, 100⟩, ⟨60, 1, 1, 100⟩] 480).length = 4 ∧ 1 < 2 :=
  ⟨by with_unfolding_all decide,
    off_before_on_at_equal_tick [⟨60, 0, 1, 100⟩, ⟨60, 1, 1, 100⟩] 480 2 1
      (by with_unfolding_all decide) (by with_unfolding_all decide)
      (by with_unfolding_all decide) (by with_unfolding_all decide)
      (by with_unfolding_all decide)⟩
